/-
Verification of the unified RAN feature classification engine.

This file is a shallow embedding, in Lean 4, of the classification system
under src/classification/ (Python).  Pure Python functions become Lean
functions; Python `float` scores are modelled as exact rationals (ℚ) —
every threshold and score in the source is a short decimal, and all the
properties proved here are robust to the ≤ 1e-15 rounding differences of
IEEE doubles; Python exceptions become `Option`/`Except` results; Python
dicts (insertion-ordered since 3.7) become association lists with
insertion-order preserving update.  Runtime-only fields of the source's
dataclasses (wall-clock `processing_time_ms`, back-references to raw
sub-results, and the redundant `ultra_granular` debug payload) are omitted
from the embedded records.
-/
import Mathlib

set_option maxRecDepth 16384

namespace RanClassify

/-! ## Python-semantics utilities -/

/-- Does `pre` occur at the head of `l`? -/
def listStartsWith : List Char → List Char → Bool
  | [], _ => true
  | _ :: _, [] => false
  | c :: pre, d :: l => c = d && listStartsWith pre l

/-- Does `sub` occur contiguously inside `l`? -/
def listHasInfix (sub : List Char) : List Char → Bool
  | [] => listStartsWith sub []
  | d :: l => listStartsWith sub (d :: l) || listHasInfix sub l

/-- Python `sub in text` substring containment on strings. -/
def strContains (text sub : String) : Bool :=
  listHasInfix sub.toList text.toList

/-- Python `str.lower()`.  Every keyword table and every concrete input in
this development is ASCII, where per-character lowering coincides with
Python's Unicode lowering. -/
def pyLower (s : String) : String :=
  String.mk (s.data.map Char.toLower)

/-- One pass of Python `str.replace` on character lists (non-overlapping,
left to right); the fuel is bounded by the text length. -/
def listReplace (sub repl : List Char) : Nat → List Char → List Char
  | 0, l => l
  | _, [] => []
  | fuel + 1, c :: rest =>
    if listStartsWith sub (c :: rest) && !sub.isEmpty then
      repl ++ listReplace sub repl fuel ((c :: rest).drop sub.length)
    else c :: listReplace sub repl fuel rest

/-- Python `s.replace(sub, repl)` (for the non-empty `sub` the source
uses). -/
def strReplace (s sub repl : String) : String :=
  String.mk (listReplace sub.data repl.data (s.data.length + 1) s.data)

/-- Python `collections.defaultdict(float)` update `d[k] += v`: if the key is
present its value is updated in place (keeping its position), otherwise the
key is appended (dicts are insertion ordered). -/
def dictAdd (l : List (String × ℚ)) (k : String) (v : ℚ) : List (String × ℚ) :=
  match l with
  | [] => [(k, v)]
  | (k', v') :: rest =>
      if k' = k then (k', v' + v) :: rest else (k', v') :: dictAdd rest k v

/-- Python `collections.defaultdict(list)` update `d[k].append(v)`. -/
def groupAdd (l : List (String × List ℚ)) (k : String) (v : ℚ) :
    List (String × List ℚ) :=
  match l with
  | [] => [(k, [v])]
  | (k', vs) :: rest =>
      if k' = k then (k', vs ++ [v]) :: rest else (k', vs) :: groupAdd rest k v

/-- Association-list lookup (Python `d[k]` / `d.get(k)`). -/
def alistGet (l : List (String × α)) (k : String) : Option α :=
  match l with
  | [] => none
  | (k', v) :: rest => if k' = k then some v else alistGet rest k

/-- The binary step of Python `max(..., key=f)`: keep the left (earlier)
element unless the right one is strictly greater. -/
def pyMaxStep (f : α → ℚ) (best x : α) : α :=
  if f x > f best then x else best

/-- Python `max(a :: l, key=f)`: the first element attaining the maximum. -/
def pyMaxBy (f : α → ℚ) (a : α) (l : List α) : α :=
  l.foldl (pyMaxStep f) a

/-- Stable descending insertion used to model Python's stable `sorted`. -/
def insortBy (f : α → ℚ) (a : α) : List α → List α
  | [] => [a]
  | b :: l => if f a ≥ f b then a :: b :: l else b :: insortBy f a l

/-- Python `sorted(l, key=f, reverse=True)`.  Python's sort is stable, and a
stable sort is uniquely determined by the key function, so this stable
insertion sort computes exactly the same list as CPython's timsort. -/
def sortDescBy (f : α → ℚ) : List α → List α
  | [] => []
  | a :: l => insortBy f a (sortDescBy f l)

/-! ## Minimal regex engine

The source calls `re.search(pattern, text, re.IGNORECASE)` on a fixed,
closed set of configuration patterns.  Those patterns only use: literal
characters, `\d` and `\`-escaped literals, character classes `[a-b0-9]`,
the wildcard `.`, groups of alternatives `(a|b|c)`, and the quantifiers
`?`, `*`, `+` and `{n}`.  The engine below interprets exactly that subset.
All configuration patterns are lowercase, so `re.IGNORECASE` is modelled
by lowercasing the text before matching. -/

/-- Quantifier on a regex atom. -/
inductive RQuant where
  | one | opt | star | plus
deriving DecidableEq, Repr

/-- Regex atoms; `alt` holds the alternatives of a group `(a|b|c)`. -/
inductive RAtom where
  | ch (c : Char)
  | dot
  | cls (ranges : List (Char × Char))
  | alt (alts : List (List (RAtom × RQuant)))
deriving Repr

/-- A compiled regex is a sequence of quantified atoms. -/
abbrev RTok := RAtom × RQuant

/-- Character-class membership. -/
def charInRanges (c : Char) (ranges : List (Char × Char)) : Bool :=
  ranges.any (fun r => r.1 ≤ c && c ≤ r.2)

mutual

/-- Remainders of `s` after matching a single occurrence of the atom at the
front of `s` (mutually with `seqRem`; the fuel only bounds recursion depth,
`searchFuel` below always provides enough of it). -/
def atomRem : Nat → RAtom → List Char → List (List Char)
  | 0, _, _ => []
  | fuel + 1, a, s =>
    match a with
    | .ch c => match s with
      | [] => []
      | c' :: r => if c' = c then [r] else []
    | .dot => match s with
      | [] => []
      | c' :: r => if c' ≠ '\n' then [r] else []
    | .cls ranges => match s with
      | [] => []
      | c' :: r => if charInRanges c' ranges then [r] else []
    | .alt alts => alts.flatMap (fun toks => seqRem fuel toks s)

/-- Remainders of `s` after matching the whole token sequence at the front
of `s`.  Under `star`/`plus` only strictly-consuming repetitions are
explored, which is complete for atoms that consume at least one character
(every atom in the source's patterns does). -/
def seqRem : Nat → List RTok → List Char → List (List Char)
  | 0, _, _ => []
  | _ + 1, [], s => [s]
  | fuel + 1, (a, q) :: rest, s =>
    let arems := atomRem fuel a s
    match q with
    | .one => arems.flatMap (seqRem fuel rest)
    | .opt => seqRem fuel rest s ++ arems.flatMap (seqRem fuel rest)
    | .star =>
        seqRem fuel rest s ++
          (arems.filter (fun r => r.length < s.length)).flatMap
            (seqRem fuel ((a, RQuant.star) :: rest))
    | .plus =>
        (arems.filter (fun r => r.length < s.length)).flatMap
          (seqRem fuel ((a, RQuant.star) :: rest))

end

mutual

/-- Syntactic size of a token list, used to bound the matcher's recursion
depth. -/
def toksWeight : List RTok → Nat
  | [] => 1
  | (a, _) :: rest => atomWeight a + toksWeight rest

/-- Syntactic size of an atom. -/
def atomWeight : RAtom → Nat
  | .alt alts => 2 + altsWeight alts
  | _ => 2

/-- Syntactic size of a group's alternatives. -/
def altsWeight : List (List RTok) → Nat
  | [] => 0
  | t :: ts => toksWeight t + altsWeight ts

end

/-- Ample fuel: the matcher's recursion depth is below
`(|s| + 2) * (weight + 2)` because every nesting level shrinks either the
remaining text (star steps) or the remaining pattern structure. -/
def searchFuel (toks : List RTok) (s : List Char) : Nat :=
  (s.length + 2) * (toksWeight toks + 2)

/-- Does the token sequence match starting at some position of `s`
(the semantics of `re.search`)? -/
def toksSearch (toks : List RTok) (s : List Char) : Bool :=
  (List.range (s.length + 1)).any
    (fun i => !(seqRem (searchFuel toks s) toks (s.drop i)).isEmpty)

/-- Parse a `{n}` repetition count. -/
def parseRepCount : List Char → Option (Nat × List Char)
  | cs =>
    let digits := cs.takeWhile (fun c => c.isDigit)
    let rest := cs.dropWhile (fun c => c.isDigit)
    match rest with
    | '}' :: r =>
      if digits.isEmpty then none
      else some (digits.foldl (fun n c => n * 10 + (c.toNat - '0'.toNat)) 0, r)
    | _ => none

/-- Parse the body of a character class, up to `]`. -/
def parseClass : List Char → Option (List (Char × Char) × List Char)
  | [] => none
  | ']' :: r => some ([], r)
  | a :: '-' :: b :: rest =>
    if b = ']' then
      -- a trailing '-' is a literal; not used by the source's patterns
      some ([(a, a), ('-', '-')], rest)
    else
      (parseClass rest).map (fun p => ((a, b) :: p.1, p.2))
  | a :: rest => (parseClass rest).map (fun p => ((a, a) :: p.1, p.2))

mutual

/-- Parse a token sequence, stopping at `)` or `|` or the end. -/
def parseToks : Nat → List Char → Option (List RTok × List Char)
  | 0, _ => none
  | _ + 1, [] => some ([], [])
  | _ + 1, ')' :: rest => some ([], ')' :: rest)
  | _ + 1, '|' :: rest => some ([], '|' :: rest)
  | fuel + 1, c :: rest => do
    let (atom, rest) ←
      match c, rest with
      | '\\', [] => none
      | '\\', e :: r => some (if e = 'd' then (RAtom.cls [('0', '9')], r) else (RAtom.ch e, r))
      | '[', r => (parseClass r).map (fun p => (RAtom.cls p.1, p.2))
      | '(', r => (parseAlts fuel r).map (fun p => (RAtom.alt p.1, p.2))
      | '.', r => some (RAtom.dot, r)
      | c, r => some (RAtom.ch c, r)
    match rest with
    | '?' :: r => (parseToks fuel r).map (fun p => ((atom, RQuant.opt) :: p.1, p.2))
    | '*' :: r => (parseToks fuel r).map (fun p => ((atom, RQuant.star) :: p.1, p.2))
    | '+' :: r => (parseToks fuel r).map (fun p => ((atom, RQuant.plus) :: p.1, p.2))
    | '{' :: r => do
        let (n, r) ← parseRepCount r
        let (toks, r) ← parseToks fuel r
        pure (List.replicate n (atom, RQuant.one) ++ toks, r)
    | r => (parseToks fuel r).map (fun p => ((atom, RQuant.one) :: p.1, p.2))

/-- Parse `|`-separated alternatives of a group, up to `)`. -/
def parseAlts : Nat → List Char → Option (List (List RTok) × List Char)
  | 0, _ => none
  | fuel + 1, cs => do
    let (toks, rest) ← parseToks fuel cs
    match rest with
    | '|' :: r => (parseAlts fuel r).map (fun p => (toks :: p.1, p.2))
    | ')' :: r => some ([toks], r)
    | _ => none

end

/-- Compile a pattern string (none on a pattern outside the subset; every
pattern in the source compiles). -/
def compilePattern (pattern : String) : Option (List RTok) := do
  let (toks, rest) ← parseToks (pattern.length + 1) pattern.toList
  if rest.isEmpty then some toks else none

/-- `re.search(pattern, text, re.IGNORECASE)` as a Boolean.  A pattern that
fails to compile matches nothing (unreachable for the source's patterns). -/
def reSearch (pattern text : String) : Bool :=
  match compilePattern pattern with
  | none => false
  | some toks => toksSearch toks (pyLower text).toList

/-- `re.escape(s)`: escape every non-alphanumeric character (escaping a
character the engine treats as literal is a no-op, so this is faithful for
literal matching). -/
def reEscape (s : String) : String :=
  String.mk (s.toList.flatMap
    (fun c => if c.isAlphanum || c = '_' then [c] else ['\\', c]))

/-! ## Data model

The repository's top-level `models` package (`models.ericsson_feature`,
`models.classification`) is not part of the sources; the records below are
modelled from the spec (§3 FeatureRecord / ClassificationResult), as plain
carrier dataclasses with the fields the classification code reads.  The
source's enums (`PrimaryCategory`, `UserRole`, `UseCaseScenario`,
`TechnologyDomain`, `SkillLevel`) are represented directly by their
`.value` strings (snake_case of the member name, as witnessed by the
fallback classifier's string literals); all values are distinct, so this
representation is faithful. -/

/-- Modelled from the spec: configuration sub-record of a FeatureRecord
(list of MO-class names, parameter count). -/
structure ConfigurationManagement where
  mo_classes : List String := []
  parameter_count : Nat := 0
deriving Repr

/-- Modelled from the spec: performance-monitoring sub-record (counter
names, trace-event names). -/
structure PerformanceMonitoring where
  pm_counters : List String := []
  trace_events : List String := []
deriving Repr

/-- Modelled from the spec: automation flags (script-ready,
self-organizing). -/
structure AutomationCapabilities where
  script_ready : Bool := false
  self_organizing : Bool := false
deriving Repr

/-- Modelled from the spec: troubleshooting procedures sub-record (the
classifiers only read its step count). -/
structure TroubleshootingInfo where
  steps_count : Nat := 0
deriving Repr

/-- Modelled from the spec: documentation sub-record (the skill assessor
only reads its complexity score). -/
structure DocumentationInfo where
  complexity_score : ℚ := 0
deriving Repr

/-- Modelled from the spec: the FeatureRecord external input (§3): id,
name, description; structured sub-records; relationship lists; network
element types; hardware/network requirements; licensing. -/
structure EnhancedEricssonFeature where
  id : String := "unknown"
  name : String := ""
  description : String := ""
  value_package : Option String := none
  access_type : Option String := none
  licensing : String := ""
  configuration : ConfigurationManagement := {}
  performance_monitoring : PerformanceMonitoring := {}
  automation : AutomationCapabilities := {}
  troubleshooting : TroubleshootingInfo := {}
  documentation : DocumentationInfo := {}
  prerequisites : List String := []
  conflicting_features : List String := []
  related_features : List String := []
  network_element_types : List String := []
  hardware_requirements : List String := []
  network_requirements : List String := []
  feature_complexity : ℚ := 0
  operational_impact : String := ""
deriving Repr

/-- Modelled from the spec: whether the feature carries any
performance-monitoring data (counters or trace events). -/
def EnhancedEricssonFeature.has_performance_monitoring
    (f : EnhancedEricssonFeature) : Bool :=
  !f.performance_monitoring.pm_counters.isEmpty ||
    !f.performance_monitoring.trace_events.isEmpty

/-- Modelled from the spec: one scored category
(`models.classification.ClassificationScore`). -/
structure ClassificationScore where
  category : String
  score : ℚ
  confidence : ℚ
  evidence : List String := []
deriving Repr

/-- Modelled from the spec: one detected technology domain
(`models.classification.DomainDetection`). -/
structure DomainDetection where
  domain : String
  relevance : ℚ
  evidence : List String := []
deriving Repr

/-- Modelled from the spec: skill assessment with per-dimension
sub-scores. -/
structure SkillAssessment where
  level : String
  total_score : ℚ
  complexity_score : ℚ
  parameter_score : ℚ
  dependency_score : ℚ
  impact_score : ℚ
deriving Repr

/-- Modelled from the spec: the legacy classifier's result record
(`models.classification.EnhancedClassification`).  `role_relevance` is an
insertion-ordered dict, modelled as an association list. -/
structure EnhancedClassification where
  feature_id : String
  primary_classification : ClassificationScore
  secondary_classifications : List ClassificationScore
  domain_detections : List DomainDetection
  skill_assessment : SkillAssessment
  use_case_classification : String
  role_relevance : List (String × ℚ)
  classification_confidence : ℚ
deriving Repr

/-- Modelled from the spec: accessor for the primary category string of a
classification (the category of its primary `ClassificationScore`). -/
def EnhancedClassification.get_primary_category
    (c : EnhancedClassification) : String :=
  c.primary_classification.category

/-- `PrimaryCategory` enum values (the `.value` strings). -/
def PrimaryCategory.ENERGY_EFFICIENCY : String := "energy_efficiency"
def PrimaryCategory.MOBILITY_MANAGEMENT : String := "mobility_management"
def PrimaryCategory.ANTENNA_MIMO : String := "antenna_mimo"
def PrimaryCategory.CARRIER_AGGREGATION : String := "carrier_aggregation"
def PrimaryCategory.VOICE_VIDEO : String := "voice_video"
def PrimaryCategory.SECURITY : String := "security"
def PrimaryCategory.NETWORK_SLICING : String := "network_slicing"
def PrimaryCategory.GENERAL : String := "general"

/-- `TechnologyDomain` enum values. -/
def TechnologyDomain.LTE : String := "lte"
def TechnologyDomain.NR : String := "nr"
def TechnologyDomain.LTE_NR : String := "lte_nr"
def TechnologyDomain.GSM : String := "gsm"
def TechnologyDomain.IoT : String := "iot"
def TechnologyDomain.OTHER : String := "other"

/-- `SkillLevel` enum values. -/
def SkillLevel.BASIC : String := "basic"
def SkillLevel.INTERMEDIATE : String := "intermediate"
def SkillLevel.ADVANCED : String := "advanced"
def SkillLevel.SPECIALIST : String := "specialist"

/-- `UserRole` enum values. -/
def UserRole.NETWORK_PLANNER : String := "network_planner"
def UserRole.FIELD_ENGINEER : String := "field_engineer"
def UserRole.PERFORMANCE_SPECIALIST : String := "performance_specialist"
def UserRole.CONFIGURATION_MANAGER : String := "configuration_manager"
def UserRole.TROUBLESHOOTING_EXPERT : String := "troubleshooting_expert"
def UserRole.AUTOMATION_ENGINEER : String := "automation_engineer"
def UserRole.ARCHITECT : String := "architect"
def UserRole.EMERGENCY_SPECIALIST : String := "emergency_specialist"

/-- `UseCaseScenario` enum values (legacy models package). -/
def UseCaseScenario.PLANNING : String := "planning"
def UseCaseScenario.DEPLOYMENT : String := "deployment"
def UseCaseScenario.OPTIMIZATION : String := "optimization"
def UseCaseScenario.MAINTENANCE : String := "maintenance"
def UseCaseScenario.TROUBLESHOOTING : String := "troubleshooting"
def UseCaseScenario.UPGRADE : String := "upgrade"
def UseCaseScenario.CAPACITY_EXPANSION : String := "capacity_expansion"

/-! ## Legacy technology detector
(`src/classification/technology_detector.py`) -/

namespace technology_detector

/-- Per-domain indicator tables (`_init_technology_indicators`). -/
structure TechIndicators where
  keywords : List String
  parameters : List String
  counters : List String
  features : List String
deriving Repr

/-- `self.technology_indicators`, in source (dict insertion) order. -/
def technology_indicators : List (String × TechIndicators) :=
  [ (TechnologyDomain.LTE,
     { keywords := ["lte", "enodeb", "e-utran", "fdd", "tdd", "e-utran",
          "eutran", "eutrancell", "e-ran", "4g", "long term evolution"]
     , parameters := ["eutrancell", "eutrancellfdd", "eutrancelltdd",
          "enodebfunction", "enodeb", "eutran", "cellfdd", "celltdd"]
     , counters := ["pmcell", "pmeutran", "pmeutrancell", "pmenodeb",
          "e-utran", "eutran"]
     , features := ["volte", "carrier aggregation", "lte advanced", "lte-a"] })
  , (TechnologyDomain.NR,
     { keywords := ["nr", "5g", "gnodeb", "ng-ran", "sa", "nsa", "new radio",
          "gnb", "gnodeb", "nrcell", "nr-nsa", "nr-sa"]
     , parameters := ["nrcell", "nrcelldu", "gnbdu", "gnbcucp", "gnbcuup",
          "gnb", "nr", "newradio"]
     , counters := ["pmnr", "pmgnb", "pmnrcell", "pmgnbdu", "nr", "new radio"]
     , features := ["massive mimo", "beamforming", "network slicing", "urlc",
          "mimo", "nr ca", "nr dual connectivity"] })
  , (TechnologyDomain.LTE_NR,
     { keywords := ["en-dc", "lte-nr", "dual connectivity", "en-dc",
          "eutra-nr", "multi-rat", "inter-rat", "lte-nr dual connectivity"]
     , parameters := ["endc", "en-dc", "lte-nr", "dualconnectivity", "eutra-nr"]
     , counters := ["endc", "en-dc", "lte-nr", "dualconnectivity"]
     , features := ["en-dc", "lte-nr dual connectivity", "multi-rat",
          "inter-technology handover"] })
  , (TechnologyDomain.GSM,
     { keywords := ["gsm", "bts", "bss", "base station", "2g", "geran",
          "base transceiver station"]
     , parameters := ["bts", "bss", "gsmcell", "geran", "gsm"]
     , counters := ["pmgsm", "pmbts", "pmgeran", "gsm"]
     , features := ["gsm", "edge", "gprs", "2g technologies"] })
  , (TechnologyDomain.IoT,
     { keywords := ["iot", "nb-iot", "cat-m", "catm", "nbiot",
          "internet of things", "lte-m", "emtc"]
     , parameters := ["iot", "nbiot", "catm", "ltem", "emtc",
          "narrowband", "nb-iot"]
     , counters := ["iot", "nbiot", "catm", "emtc"]
     , features := ["nb-iot", "cat-m", "iot optimization", "lpwa"] }) ]

/-- `self.parameter_patterns`. -/
def parameter_patterns : List (String × List String) :=
  [ (TechnologyDomain.LTE,
      ["eutrancell", "enodeb", "cellfdd", "celltdd", "eutran",
       "eutran", "rach", "pmi", "ri"])
  , (TechnologyDomain.NR,
      ["nrcell", "gnb", "gnbdu", "gnbcu", "nr",
       "bwp", "numerology", "scs", "csi", "srs"])
  , (TechnologyDomain.LTE_NR,
      ["endc", "en-?dc", "ltenr", "dualconnectivity", "mr-?rat", "multi-?rat"])
  , (TechnologyDomain.GSM,
      ["bts", "bss", "geran", "gsmcell", "gsm", "arfcn", "bcch", "pdch"])
  , (TechnologyDomain.IoT,
      ["iot", "nbiot", "cat-?m", "emtc", "nb-?iot",
       "ce", "coverage-?enhancement"]) ]

/-- `self.counter_patterns`. -/
def counter_patterns : List (String × List String) :=
  [ (TechnologyDomain.LTE,
      ["pm(eutrancell|enodeb|eutran)", "pmcell",
       "pmrach", "pmmac", "pmrlc", "pmpdcp"])
  , (TechnologyDomain.NR,
      ["pm(nrcell|gnb|gnbdu)", "pmnr", "pmcsi", "pmdci", "pmbwp",
       "pmnumerology"])
  , (TechnologyDomain.LTE_NR,
      ["pmendc", "pmen-?dc", "pmlte-?nr", "pmdualconnectivity"])
  , (TechnologyDomain.GSM,
      ["pm(gsm|bts|bss|geran)", "pmgsmcell", "pmarfcn", "pmrxlev", "pmcqich"])
  , (TechnologyDomain.IoT,
      ["pm(iot|nbiot|cat-?m|emtc)", "pmnb-?iot", "pmce",
       "pmcoverage-?enhancement"]) ]

/-- `self.feature_patterns`. -/
def feature_patterns : List (String × List String) :=
  [ (TechnologyDomain.LTE,
      ["4g", "lte", "volte", "lte-?a", "lte-?advanced",
       "carrier aggregation.*lte", "tm[3-7]"])
  , (TechnologyDomain.NR,
      ["5g", "nr", "new radio", "massive mimo", "network slicing",
       "urlc", "urllc"])
  , (TechnologyDomain.LTE_NR,
      ["en-?dc", "lte-?nr", "dual connectivity", "multi-?rat", "nsga"])
  , (TechnologyDomain.GSM, ["2g", "gsm", "geran", "edge", "gprs"])
  , (TechnologyDomain.IoT,
      ["nb-?iot", "cat-?m", "emtc", "lpwa", "internet of things", "iot"]) ]

/-- `self.network_element_patterns`. -/
def network_element_patterns : List (String × List String) :=
  [ (TechnologyDomain.LTE,
      ["baseband 66\\d+", "enodeb", "e-utran", "radio.*processor.*6\\d{3}"])
  , (TechnologyDomain.NR,
      ["baseband.*6\\d{3}", "gnodeb", "ng-?ran", "radio.*system.*6\\d{3}"])
  , (TechnologyDomain.LTE_NR,
      ["dual.*connectivity", "multi-?standard", "inter-?technology"])
  , (TechnologyDomain.GSM,
      ["bts", "rbs", "base station", "radio.*base.*station"])
  , (TechnologyDomain.IoT,
      ["iot.*gateway", "nb-?iot.*base", "cat-?m.*radio"]) ]

/-- `_create_feature_text_corpus`: lower-cased concatenation of all text
components. -/
def create_feature_text_corpus (f : EnhancedEricssonFeature) : String :=
  (pyLower (String.intercalate " "
    [ f.name, f.description, f.value_package.getD "", f.access_type.getD "",
      f.licensing,
      String.intercalate " " f.configuration.mo_classes,
      String.intercalate " " f.performance_monitoring.pm_counters,
      String.intercalate " " f.performance_monitoring.trace_events,
      String.intercalate " " f.prerequisites,
      String.intercalate " " f.related_features,
      String.intercalate " " f.conflicting_features,
      String.intercalate " " f.network_element_types,
      String.intercalate " " f.hardware_requirements,
      String.intercalate " " f.network_requirements,
      f.id ]))

/-- `_calculate_keyword_match_score`: fraction of keywords occurring as
substrings, clamped to 1. -/
def calculate_keyword_match_score (text : String) (keywords : List String) : ℚ :=
  if keywords.isEmpty then 0
  else min ((keywords.countP (fun kw => strContains text kw) : ℚ) /
      (keywords.length : ℚ)) 1

/-- `_calculate_pattern_match_score`: fraction of case-insensitive regex
patterns matching, clamped to 1. -/
def calculate_pattern_match_score (text : String) (patterns : List String) : ℚ :=
  if patterns.isEmpty then 0
  else min ((patterns.countP (fun p => reSearch p text) : ℚ) /
      (patterns.length : ℚ)) 1

/-- `_calculate_domain_relevance`: weighted combination of the five
indicator scores, capped at 1. -/
def calculate_domain_relevance (text : String) (ind : TechIndicators)
    (f : EnhancedEricssonFeature) (tech : String) : ℚ :=
  let keyword_score := calculate_keyword_match_score text ind.keywords
  let param_score := calculate_pattern_match_score
    (String.intercalate " " f.configuration.mo_classes)
    ((alistGet parameter_patterns tech).getD [])
  let counter_score := calculate_pattern_match_score
    (String.intercalate " " f.performance_monitoring.pm_counters)
    ((alistGet counter_patterns tech).getD [])
  let feature_score := calculate_pattern_match_score
    (f.name ++ " " ++ f.description)
    ((alistGet feature_patterns tech).getD [])
  let element_score := calculate_pattern_match_score
    (String.intercalate " " f.network_element_types)
    ((alistGet network_element_patterns tech).getD [])
  min (keyword_score * 0.4 + param_score * 0.25 + counter_score * 0.2 +
       feature_score * 0.10 + element_score * 0.05) 1

/-- First pattern of `pats` (among its first `k`) matching `text`, rendered
as evidence with the given label (the `for .. if re.search .. break` idiom
in `_get_domain_evidence`). -/
def firstPatternEvidence (label : String) (pats : List String) (k : Nat)
    (text : String) : List String :=
  match (pats.take k).find? (fun p => reSearch p text) with
  | some p => [label ++ p]
  | none => []

/-- `_get_domain_evidence`. -/
def get_domain_evidence (text : String) (ind : TechIndicators)
    (f : EnhancedEricssonFeature) (tech : String) : List String :=
  let found_keywords := ind.keywords.filter (fun kw => strContains text kw)
  (if found_keywords.isEmpty then []
   else ["Keywords found: " ++ String.intercalate ", " (found_keywords.take 3)]) ++
  firstPatternEvidence "Parameters match: "
    ((alistGet parameter_patterns tech).getD []) 2
    (String.intercalate " " f.configuration.mo_classes) ++
  firstPatternEvidence "Counters match: "
    ((alistGet counter_patterns tech).getD []) 2
    (String.intercalate " " f.performance_monitoring.pm_counters) ++
  firstPatternEvidence "Feature identity: "
    ((alistGet feature_patterns tech).getD []) 2
    (f.name ++ " " ++ f.description) ++
  firstPatternEvidence "Network elements: "
    ((alistGet network_element_patterns tech).getD []) 2
    (String.intercalate " " f.network_element_types)

/-- `detect_domains`: score every domain, keep those with relevance ≥ 0.2,
sort by relevance (stable, descending), and fall back to a default OTHER
detection when nothing qualifies. -/
def detect_domains (f : EnhancedEricssonFeature) : List DomainDetection :=
  let feature_text := create_feature_text_corpus f
  let detected := technology_indicators.filterMap (fun (tech, ind) =>
    let score := calculate_domain_relevance feature_text ind f tech
    if score ≥ 0.2 then
      some { domain := tech, relevance := score
           , evidence := get_domain_evidence feature_text ind f tech }
    else none)
  let detected := sortDescBy (fun d => d.relevance) detected
  if detected.isEmpty then
    [{ domain := TechnologyDomain.OTHER, relevance := 0.1
     , evidence := ["No specific technology detected"] }]
  else detected

end technology_detector

/-! ## Legacy skill assessor (`src/classification/skill_assessor.py`) -/

namespace skill_assessor

/-- `self.complexity_keywords` (`_init_complexity_indicators`). -/
def complexity_keywords_high : List String :=
  ["advanced", "complex", "sophisticated", "multi-layer", "coordination",
   "optimization", "algorithm", "intelligence", "machine learning", "ai",
   "prediction", "adaptive"]

/-- Medium-complexity keywords. -/
def complexity_keywords_medium : List String :=
  ["enhancement", "improvement", "management", "control", "configuration",
   "monitoring", "measurement", "optimization"]

/-- Low-complexity keywords. -/
def complexity_keywords_low : List String :=
  ["basic", "simple", "standard", "routine", "monitoring", "reporting",
   "logging", "collection"]

/-- `self.technical_complexity_indicators` (values only; the keys are
unused by the scoring loop). -/
def technical_complexity_indicators : List (List String) :=
  [ ["massive mimo", "tm8", "beamforming", "spatial multiplexing"]
  , ["carrier aggregation", "ca", "inter-frequency", "intra-frequency"]
  , ["en-dc", "lte-nr", "dual connectivity", "multi-rat"]
  , ["network slicing", "nssai", "slice isolation"]
  , ["coordination", "inter-cell", "multi-cell", "cooperative"]
  , ["automation", "self-organizing", "zero-touch", "ai/ml"] ]

/-- `self.impact_indicators`. -/
def impact_indicators_critical : List String :=
  ["service affecting", "outage", "failure", "critical", "emergency",
   "security", "protection", "resilience"]

/-- High-impact indicators. -/
def impact_indicators_high : List String :=
  ["performance", "capacity", "coverage", "quality", "optimization",
   "enhancement", "improvement"]

/-- Medium-impact indicators. -/
def impact_indicators_medium : List String :=
  ["monitoring", "measurement", "reporting", "logging", "collection",
   "analysis"]

/-- `_assess_feature_complexity` (0–3 points). -/
def assess_feature_complexity (f : EnhancedEricssonFeature) : ℚ :=
  let score : ℚ := 0
  let score := score +
    (if f.documentation.complexity_score > 0 then
       min (f.documentation.complexity_score / 11.5 * 2.0) 2.0 else 0)
  let feature_text := (pyLower (f.name ++ " " ++ f.description))
  let highM := complexity_keywords_high.countP (fun kw => strContains feature_text kw)
  let medM := complexity_keywords_medium.countP (fun kw => strContains feature_text kw)
  let lowM := complexity_keywords_low.countP (fun kw => strContains feature_text kw)
  let score := score + (if highM > 0 then min ((highM : ℚ) * 0.5) 1.0 else 0)
  let score := score + (if medM > 0 then min ((medM : ℚ) * 0.3) 0.6 else 0)
  let score := score + (if lowM > 0 then min ((lowM : ℚ) * 0.1) 0.2 else 0)
  let score := score + 0.3 *
    (technical_complexity_indicators.countP
      (fun ind => ind.any (fun kw => strContains feature_text kw)) : ℚ)
  min score 3.0

/-- `_calculate_parameter_count_score` (the tuple bounds 10/25/50 come from
`self.parameter_weights['count']`). -/
def calculate_parameter_count_score (count : Nat) : ℚ :=
  if count ≤ 10 then 0.2
  else if count ≤ 25 then 0.5
  else if count ≤ 50 then 0.8
  else 1.0

/-- `_calculate_parameter_type_score` (bounds 2/5/10 from
`self.parameter_weights['types']`). -/
def calculate_parameter_type_score (type_count : Nat) : ℚ :=
  if type_count ≤ 2 then 0.1
  else if type_count ≤ 5 then 0.3
  else if type_count ≤ 10 then 0.5
  else 0.7

/-- `self.parameter_weights['special_patterns']`. -/
def special_patterns_high : List String := ["qci", "earfcn", "pci", "tac", "plmn"]

/-- Medium-weight special parameter patterns. -/
def special_patterns_medium : List String := ["threshold", "timer", "offset", "margin"]

/-- Low-weight special parameter patterns. -/
def special_patterns_low : List String := ["enable", "disable", "status", "mode"]

/-- `_calculate_parameter_pattern_score`. -/
def calculate_parameter_pattern_score (param_text : String) : ℚ :=
  min ((special_patterns_high.countP (fun p => strContains param_text p) : ℚ) * 0.2) 0.6 +
  min ((special_patterns_medium.countP (fun p => strContains param_text p) : ℚ) * 0.1) 0.3 +
  min ((special_patterns_low.countP (fun p => strContains param_text p) : ℚ) * 0.05) 0.1

/-- `_assess_parameter_complexity` (0–2 points); `len(set(mo_classes))` is
the number of distinct MO classes. -/
def assess_parameter_complexity (f : EnhancedEricssonFeature) : ℚ :=
  let count_score := calculate_parameter_count_score f.configuration.parameter_count
  let type_score := calculate_parameter_type_score f.configuration.mo_classes.dedup.length
  let pattern_score := calculate_parameter_pattern_score
    ((pyLower (String.intercalate " " f.configuration.mo_classes)))
  min (count_score + type_score + pattern_score) 2.0

/-- `_assess_dependency_complexity` (0–2 points). -/
def assess_dependency_complexity (f : EnhancedEricssonFeature) : ℚ :=
  let prereq := f.prerequisites.length
  let conflict := f.conflicting_features.length
  let related := f.related_features.length
  let score : ℚ :=
    (if prereq > 5 then 1.0 else if prereq > 2 then 0.6
     else if prereq > 0 then 0.3 else 0) +
    (if conflict > 3 then 0.6 else if conflict > 1 then 0.3
     else if conflict > 0 then 0.1 else 0) +
    (if related > 10 then 0.4 else if related > 5 then 0.2
     else if related > 0 then 0.1 else 0)
  min score 2.0

/-- `_assess_operational_impact` (0–3 points). -/
def assess_operational_impact (f : EnhancedEricssonFeature) : ℚ :=
  let impact_text := (pyLower (f.operational_impact ++ " " ++ f.description))
  let criticalM := impact_indicators_critical.countP (fun kw => strContains impact_text kw)
  let highM := impact_indicators_high.countP (fun kw => strContains impact_text kw)
  let medM := impact_indicators_medium.countP (fun kw => strContains impact_text kw)
  let score : ℚ :=
    (if criticalM > 0 then min ((criticalM : ℚ) * 1.0) 2.0 else 0) +
    (if highM > 0 then min ((highM : ℚ) * 0.5) 1.0 else 0) +
    (if medM > 0 then min ((medM : ℚ) * 0.2) 0.5 else 0) +
    (if f.network_element_types.length > 3 then 0.5
     else if f.network_element_types.length > 1 then 0.2 else 0) +
    (if f.troubleshooting.steps_count > 10 then 0.5
     else if f.troubleshooting.steps_count > 5 then 0.3
     else if f.troubleshooting.steps_count > 0 then 0.1 else 0) +
    (if f.licensing ≠ "" && strContains (pyLower f.licensing) "critical"
     then 0.3 else 0)
  min score 3.0

/-- `_determine_skill_level`: bucket the total score through the
half-open threshold ranges; scores at or above 10 saturate to
specialist. -/
def determine_skill_level (total : ℚ) : String :=
  if 0 ≤ total ∧ total < 3 then SkillLevel.BASIC
  else if 3 ≤ total ∧ total < 6 then SkillLevel.INTERMEDIATE
  else if 6 ≤ total ∧ total < 8 then SkillLevel.ADVANCED
  else if 8 ≤ total ∧ total < 10 then SkillLevel.SPECIALIST
  else SkillLevel.SPECIALIST

/-- Python `round(x, 2)`; CPython rounds the underlying double half to
even — the difference from half-up rounding is immaterial here, these
rounded fields are presentational and unread by the classification paths. -/
def round2 (q : ℚ) : ℚ := (round (q * 100) : ℚ) / 100

/-- `assess_skill_level`. -/
def assess_skill_level (f : EnhancedEricssonFeature) : SkillAssessment :=
  let complexity_score := assess_feature_complexity f
  let parameter_score := assess_parameter_complexity f
  let dependency_score := assess_dependency_complexity f
  let impact_score := assess_operational_impact f
  let total_score := complexity_score + parameter_score + dependency_score + impact_score
  { level := determine_skill_level total_score
  , total_score := round2 total_score
  , complexity_score := round2 complexity_score
  , parameter_score := round2 parameter_score
  , dependency_score := round2 dependency_score
  , impact_score := round2 impact_score }

end skill_assessor

/-! ## Advanced feature classifier
(`src/classification/feature_classifier.py`).  The `category_patterns`
table initialised there is never read by any classification path, so it is
not reproduced here. -/

namespace feature_classifier

/-- `self.semantic_keywords` (insertion order matters for the dict of
category scores). -/
def semantic_keywords : List (String × List String) :=
  [ ("mimo", ["mimo", "beamforming", "antenna", "diversity", "spatial",
       "layer", "tm8", "tm3"])
  , ("energy", ["energy", "power", "sleep", "saving", "efficiency", "pa",
       "reduction", "consumption"])
  , ("mobility", ["handover", "mobility", "handoff", "cell", "handoff",
       "ping-pong", "hopping"])
  , ("capacity", ["capacity", "load", "balancing", "congestion",
       "expansion", "scaling", "dimensioning"])
  , ("coverage", ["coverage", "range", "signal", "quality", "extension",
       "enhancement"])
  , ("hardware", ["radio", "unit", "firmware", "calibration", "equipment",
       "installation"])
  , ("voice", ["voice", "volte", "vinr", "audio", "codec", "tti", "bundling"])
  , ("video", ["video", "mbms", "broadcast", "streaming", "multimedia"])
  , ("security", ["security", "encryption", "authentication", "privacy",
       "protection"])
  , ("automation", ["automation", "script", "self", "organizing",
       "zero-touch", "auto"])
  , ("slicing", ["slicing", "nssai", "network", "slice", "isolation"])
  , ("optimization", ["optimization", "tuning", "enhancement",
       "improvement", "boost"]) ]

/-- `_map_theme_to_category`. -/
def map_theme_to_category (theme : String) : Option String :=
  alistGet
    [ ("mimo", PrimaryCategory.ANTENNA_MIMO)
    , ("energy", PrimaryCategory.ENERGY_EFFICIENCY)
    , ("mobility", PrimaryCategory.MOBILITY_MANAGEMENT)
    , ("capacity", PrimaryCategory.MOBILITY_MANAGEMENT)
    , ("voice", PrimaryCategory.VOICE_VIDEO)
    , ("video", PrimaryCategory.VOICE_VIDEO)
    , ("security", PrimaryCategory.SECURITY)
    , ("slicing", PrimaryCategory.NETWORK_SLICING)
    , ("automation", PrimaryCategory.GENERAL)
    , ("optimization", PrimaryCategory.GENERAL) ] theme

/-- `analyze_feature_name`: per-theme keyword relevance, converted to
category scores (`relevance * confidence` accumulated per category). -/
def analyze_feature_name (name description : String) : List (String × ℚ) :=
  let text := (pyLower (name ++ " " ++ description))
  let detected_themes := semantic_keywords.filterMap (fun tk =>
    let relevance_score := tk.2.countP (fun kw => strContains text kw)
    if relevance_score > 0 then
      some (tk.1, (relevance_score : ℚ),
        min ((relevance_score : ℚ) / (tk.2.length : ℚ)) 1)
    else none)
  detected_themes.foldl (fun acc t =>
    match map_theme_to_category t.1 with
    | some category => dictAdd acc category (t.2.1 * t.2.2)
    | none => acc) []

/-- `analyze_content_themes`. -/
def analyze_content_themes (f : EnhancedEricssonFeature) : List (String × ℚ) :=
  let scores : List (String × ℚ) := []
  let scores := if f.automation.script_ready then
    dictAdd scores PrimaryCategory.GENERAL 0.3 else scores
  let scores := if f.automation.self_organizing then
    dictAdd scores PrimaryCategory.GENERAL 0.2 else scores
  let scores := if f.has_performance_monitoring then
    dictAdd scores PrimaryCategory.GENERAL 0.2 else scores
  let scores := if f.configuration.parameter_count > 10 then
    dictAdd scores PrimaryCategory.GENERAL 0.1 else scores
  let scores := if f.troubleshooting.steps_count > 0 then
    dictAdd scores PrimaryCategory.GENERAL 0.1 else scores
  let total_dependencies := f.prerequisites.length +
    f.conflicting_features.length + f.related_features.length
  let scores := if total_dependencies > 5 then
    dictAdd scores PrimaryCategory.GENERAL 0.1 else scores
  scores

/-- `analyze_parameter_types`. -/
def analyze_parameter_types (mo_classes : List String) : List (String × ℚ) :=
  let mo_text := (pyLower (String.intercalate " " mo_classes))
  let scores : List (String × ℚ) := []
  let scores := if strContains mo_text "eutrancell" then
    dictAdd scores PrimaryCategory.MOBILITY_MANAGEMENT 0.3 else scores
  let scores := if strContains mo_text "nrcell" then
    dictAdd scores PrimaryCategory.MOBILITY_MANAGEMENT 0.3 else scores
  let scores := if strContains mo_text "energy" || strContains mo_text "power" then
    dictAdd scores PrimaryCategory.ENERGY_EFFICIENCY 0.4 else scores
  let scores := if strContains mo_text "antenna" || strContains mo_text "mimo" then
    dictAdd scores PrimaryCategory.ANTENNA_MIMO 0.4 else scores
  scores

/-- `analyze_counter_domains`. -/
def analyze_counter_domains (pm_counters : List String) : List (String × ℚ) :=
  let counter_text := (pyLower (String.intercalate " " pm_counters))
  let scores : List (String × ℚ) := []
  let scores := if strContains counter_text "voip" || strContains counter_text "voice" then
    dictAdd scores PrimaryCategory.VOICE_VIDEO 0.4 else scores
  let scores := if strContains counter_text "video" then
    dictAdd scores PrimaryCategory.VOICE_VIDEO 0.3 else scores
  let scores := if strContains counter_text "handover" || strContains counter_text "mobility" then
    dictAdd scores PrimaryCategory.MOBILITY_MANAGEMENT 0.3 else scores
  let scores := if strContains counter_text "release" then
    dictAdd scores PrimaryCategory.MOBILITY_MANAGEMENT 0.2 else scores
  let scores := if strContains counter_text "throughput" || strContains counter_text "vol" then
    dictAdd scores PrimaryCategory.MOBILITY_MANAGEMENT 0.2 else scores
  let scores := if strContains counter_text "energy" || strContains counter_text "power" then
    dictAdd scores PrimaryCategory.ENERGY_EFFICIENCY 0.4 else scores
  scores

/-- `analyze_network_impact`. -/
def analyze_network_impact (f : EnhancedEricssonFeature) : List (String × ℚ) :=
  let scores : List (String × ℚ) := []
  let scores := if f.feature_complexity > 8.0 then
    dictAdd scores PrimaryCategory.GENERAL 0.2 else scores
  let scores := if f.prerequisites.length > 3 then
    dictAdd scores PrimaryCategory.GENERAL 0.2 else scores
  let scores := if f.network_element_types.length > 2 then
    dictAdd scores PrimaryCategory.GENERAL 0.1 else scores
  let scores := if f.licensing ≠ "" && strContains (pyLower f.licensing) "license" then
    dictAdd scores PrimaryCategory.GENERAL 0.1 else scores
  scores

/-- `calculate_weighted_scores`. -/
def calculate_weighted_scores
    (weighted_analyses : List (List (String × ℚ) × ℚ)) : List (String × ℚ) :=
  weighted_analyses.foldl (fun combined aw =>
    aw.1.foldl (fun acc cs =>
      dictAdd acc cs.1 (cs.2 * aw.2)) combined) []

/-- `_get_category_evidence` (the source wraps the category in single
quotes, written `\x27` here). -/
def get_category_evidence (category : String) (f : EnhancedEricssonFeature) :
    List String :=
  (if ((alistGet semantic_keywords (pyLower category)).getD []).any
      (fun pattern => strContains (pyLower f.name) (pyLower pattern)) then
    ["Name contains \x27" ++ category ++ "\x27 keywords"] else []) ++
  (if f.description ≠ "" && strContains (pyLower f.description) (pyLower category) then
    ["Description mentions \x27" ++ category ++ "\x27"] else []) ++
  (if strContains (pyLower (String.intercalate " " f.configuration.mo_classes))
      (pyLower category) then
    ["Parameters related to \x27" ++ category ++ "\x27"] else []) ++
  (if strContains (pyLower (String.intercalate " " f.performance_monitoring.pm_counters))
      (pyLower category) then
    ["PM counters for \x27" ++ category ++ "\x27"] else [])

/-- `self.use_case_patterns`, in insertion order. -/
def use_case_patterns : List (String × List String) :=
  [ (UseCaseScenario.PLANNING,
      ["planning", "dimensioning", "design", "architecture",
       "capacity.*planning", "coverage.*planning"])
  , (UseCaseScenario.DEPLOYMENT,
      ["deployment", "installation", "commissioning", "setup",
       "implementation", "rollout"])
  , (UseCaseScenario.OPTIMIZATION,
      ["optimization", "tuning", "enhancement", "improvement",
       "performance.*optimization"])
  , (UseCaseScenario.MAINTENANCE,
      ["maintenance", "service", "lifecycle", "update", "preventive",
       "routine"])
  , (UseCaseScenario.TROUBLESHOOTING,
      ["troubleshooting", "fault", "alarm", "investigation",
       "problem.*solving", "recovery"])
  , (UseCaseScenario.UPGRADE,
      ["upgrade", "migration", "evolution", "transition",
       "technology.*upgrade"])
  , (UseCaseScenario.CAPACITY_EXPANSION,
      ["expansion", "scaling", "capacity.*increase", "load.*balancing",
       "congestion.*relief"]) ]

/-- `classify_use_case`: first scenario (in table order) with a matching
pattern; defaults to optimization. -/
def classify_use_case (f : EnhancedEricssonFeature) : String :=
  let text := (pyLower (f.name ++ " " ++ f.description))
  match use_case_patterns.find? (fun (_, patterns) =>
      patterns.any (fun pattern => reSearch pattern text)) with
  | some (scenario, _) => scenario
  | none => UseCaseScenario.OPTIMIZATION

/-- `self.role_keywords`, in insertion order. -/
def role_keywords : List (String × List String) :=
  [ (UserRole.NETWORK_PLANNER,
      ["planning", "dimensioning", "capacity", "coverage", "site",
       "rollout", "deployment", "expansion", "architecture"])
  , (UserRole.FIELD_ENGINEER,
      ["installation", "commissioning", "calibration", "maintenance",
       "hardware", "equipment", "radio", "site", "field"])
  , (UserRole.PERFORMANCE_SPECIALIST,
      ["optimization", "performance", "kpi", "tuning", "quality",
       "throughput", "latency", "improvement"])
  , (UserRole.CONFIGURATION_MANAGER,
      ["configuration", "parameter", "feature.*activation", "management",
       "deployment", "backup", "recovery", "audit"])
  , (UserRole.TROUBLESHOOTING_EXPERT,
      ["troubleshooting", "fault", "alarm", "diagnosis", "recovery",
       "resolution", "investigation", "problem"])
  , (UserRole.AUTOMATION_ENGINEER,
      ["automation", "script", "zero.*touch", "self.*organizing",
       "workflow", "process", "orchestration"])
  , (UserRole.ARCHITECT,
      ["architecture", "design", "strategy", "integration", "technology",
       "migration", "selection"])
  , (UserRole.EMERGENCY_SPECIALIST,
      ["emergency", "disaster", "resilience", "recovery", "critical",
       "priority", "warning", "pws"]) ]

/-- `calculate_role_relevance`: every role gets a (possibly zero) score,
so the returned dict always has all eight roles as keys. -/
def calculate_role_relevance (f : EnhancedEricssonFeature) :
    List (String × ℚ) :=
  let text := (pyLower (f.name ++ " " ++ f.description ++ " " ++
    String.intercalate " " f.configuration.mo_classes))
  role_keywords.map (fun (role, keywords) =>
    (role, min ((keywords.countP (fun kw => strContains text kw) : ℚ) /
      (keywords.length : ℚ)) 1))

/-- `classify_feature`.  Returns `none` exactly when the combined score
dict is empty: there Python's `max(scores.items(), ...)` raises
`ValueError: max() arg is an empty sequence`. -/
def classify_feature (f : EnhancedEricssonFeature) :
    Option EnhancedClassification :=
  let scores := calculate_weighted_scores
    [ (analyze_feature_name f.name f.description, 0.30)
    , (analyze_content_themes f, 0.25)
    , (analyze_parameter_types f.configuration.mo_classes, 0.20)
    , (analyze_counter_domains f.performance_monitoring.pm_counters, 0.15)
    , (analyze_network_impact f, 0.10) ]
  match scores with
  | [] => none
  | s0 :: srest =>
    let primary_classification := pyMaxBy (fun p => p.2) s0 srest
    let primary_score : ClassificationScore :=
      { category := primary_classification.1
      , score := primary_classification.2
      , confidence := min (primary_classification.2 * 1.2) 1.0
      , evidence := get_category_evidence primary_classification.1 f }
    let secondary_classifications :=
      (((sortDescBy (fun p => p.2) scores).drop 1).take 3).map
        (fun cs =>
          ({ category := cs.1, score := cs.2
           , confidence := min (cs.2 * 1.1) 1.0
           , evidence := get_category_evidence cs.1 f } : ClassificationScore))
    some
      { feature_id := f.id
      , primary_classification := primary_score
      , secondary_classifications := secondary_classifications
      , domain_detections := technology_detector.detect_domains f
      , skill_assessment := skill_assessor.assess_skill_level f
      , use_case_classification := classify_use_case f
      , role_relevance := calculate_role_relevance f
      , classification_confidence := min (primary_score.score + 0.1) 1.0 }

end feature_classifier

/-! ## Enhanced (core) technology detector
(`src/classification/core/technology_detector.py`) -/

namespace core_technology_detector

/-- `DetectionSensitivity` presets. -/
inductive DetectionSensitivity where
  | conservative | balanced | aggressive
deriving DecidableEq, Repr

/-- `TechnologyScope` presets. -/
inductive TechnologyScope where
  | basic | multi_tech | comprehensive
deriving DecidableEq, Repr

/-- Per-domain indicator tables (`_init_technology_indicators`). -/
structure TechTables where
  keywords : List String
  parameters : List String
  counters : List String
  features : List String
  network_elements : List String
  sub_domains : List String
deriving Repr

/-- `self.technology_indicators`, in source order. -/
def technology_indicators : List (String × TechTables) :=
  [ (TechnologyDomain.LTE,
     { keywords := ["lte", "enodeb", "e-utran", "fdd", "tdd", "e-utran",
         "eutran", "eutrancell", "e-ran", "4g", "long term evolution",
         "volte", "carrier aggregation", "lte advanced", "lte-a"]
     , parameters := ["eutrancell", "eutrancellfdd", "eutrancelltdd",
         "enodebfunction", "enodeb", "eutran", "cellfdd", "celltdd",
         "eutrancellfdd", "eutrancelltdd", "enodebfunction", "enodeb", "eutran"]
     , counters := ["pmcell", "pmeutran", "pmeutrancell", "pmenodeb",
         "e-utran", "eutran", "pmrach", "pmmac", "pmrlc", "pmpdcp"]
     , features := ["volte", "carrier aggregation", "lte advanced", "lte-a",
         "tm[3-7]", "enb", "e-nodeb"]
     , network_elements := ["baseband 66\\d+", "enodeb", "e-utran",
         "radio.*processor.*6\\d{3}"]
     , sub_domains := ["lte-advanced", "volte", "carrier-aggregation",
         "tdd", "fdd"] })
  , (TechnologyDomain.NR,
     { keywords := ["nr", "5g", "gnodeb", "ng-ran", "sa", "nsa", "new radio",
         "gnb", "gnodeb", "nrcell", "nr-nsa", "nr-sa", "massive mimo",
         "beamforming", "network slicing", "urlc", "mimo", "nr ca",
         "nr dual connectivity", "mmwave"]
     , parameters := ["nrcell", "nrcelldu", "gnbdu", "gnbcucp", "gnbcuup",
         "gnb", "nr", "newradio", "bwp", "numerology", "scs", "csi", "srs",
         "nrcelldu", "gnbdu", "gnbcucp", "gnbcuup"]
     , counters := ["pmnr", "pmgnb", "pmnrcell", "pmgnbdu", "nr", "new radio",
         "pmcsi", "pmdci", "pmbwp", "pmnumerology"]
     , features := ["massive mimo", "beamforming", "network slicing", "urlc",
         "mimo", "nr ca", "nr dual connectivity", "5g", "new radio",
         "mmwave", "numerology"]
     , network_elements := ["baseband.*6\\d{3}", "gnodeb", "ng-?ran",
         "radio.*system.*6\\d{3}"]
     , sub_domains := ["nr-sa", "nr-nsa", "mmwave", "beamforming",
         "network-slicing", "massive-mimo"] })
  , (TechnologyDomain.LTE_NR,
     { keywords := ["en-dc", "lte-nr", "dual connectivity", "en-dc",
         "eutra-nr", "multi-rat", "inter-rat", "lte-nr dual connectivity",
         "mr-dc", "multi-connectivity"]
     , parameters := ["endc", "en-dc", "lte-nr", "dualconnectivity",
         "eutra-nr", "mrdc", "multi-connectivity"]
     , counters := ["pmendc", "pmen-?dc", "pmlte-?nr", "pmdualconnectivity",
         "pmmrdc"]
     , features := ["en-dc", "lte-nr dual connectivity", "multi-rat",
         "inter-technology handover", "mr-dc", "dual connectivity"]
     , network_elements := ["dual.*connectivity", "multi-?standard",
         "inter-?technology"]
     , sub_domains := ["en-dc", "en-dc", "lte-nr", "mr-dc",
         "dual-connectivity"] })
  , (TechnologyDomain.GSM,
     { keywords := ["gsm", "bts", "bss", "base station", "2g", "geran",
         "base transceiver station", "edge", "gprs"]
     , parameters := ["bts", "bss", "gsmcell", "geran", "gsm", "arfcn",
         "bcch", "pdch"]
     , counters := ["pmgsm", "pmbts", "pmgeran", "gsm", "pmgsmcell",
         "pmarfcn", "pmrxlev", "pmcqich"]
     , features := ["gsm", "edge", "gprs", "2g technologies", "arfcn",
         "bcch", "pdch"]
     , network_elements := ["bts", "rbs", "base station",
         "radio.*base.*station"]
     , sub_domains := ["gsm", "edge", "gprs", "2g"] })
  , (TechnologyDomain.IoT,
     { keywords := ["iot", "nb-iot", "cat-m", "catm", "nbiot",
         "internet of things", "lte-m", "emtc", "lpwa", "narrowband",
         "nb-iot"]
     , parameters := ["iot", "nbiot", "catm", "ltem", "emtc", "narrowband",
         "nb-iot", "ce", "coverage-?enhancement"]
     , counters := ["iot", "nbiot", "catm", "emtc", "pmnb-?iot", "pmce",
         "pmcoverage-?enhancement"]
     , features := ["nb-iot", "cat-m", "iot optimization", "lpwa",
         "coverage enhancement", "ce"]
     , network_elements := ["iot.*gateway", "nb-?iot.*base", "cat-?m.*radio"]
     , sub_domains := ["nb-iot", "cat-m", "emtc", "lpwa", "iot"] }) ]

/-- `self.parameter_patterns` (`_init_detection_patterns`). -/
def parameter_patterns : List (String × List String) :=
  [ (TechnologyDomain.LTE,
      ["eutrancell", "enodeb", "cellfdd", "celltdd", "eutran", "eutran",
       "rach", "pmi", "ri", "cqi"])
  , (TechnologyDomain.NR,
      ["nrcell", "gnb", "gnbdu", "gnbcu", "nr", "bwp", "numerology", "scs",
       "csi", "srs", "csi-rs", "dm-rs", "tr-state"])
  , (TechnologyDomain.LTE_NR,
      ["endc", "en-?dc", "ltenr", "dualconnectivity", "mr-?rat",
       "multi-?rat", "mrdc"])
  , (TechnologyDomain.GSM,
      ["bts", "bss", "geran", "gsmcell", "gsm", "arfcn", "bcch", "pdch",
       "hsdpa", "hsupa"])
  , (TechnologyDomain.IoT,
      ["iot", "nbiot", "cat-?m", "emtc", "nb-?iot", "ce",
       "coverage-?enhancement", "npss", "nsi"]) ]

/-- `self.counter_patterns`. -/
def counter_patterns : List (String × List String) :=
  [ (TechnologyDomain.LTE,
      ["pm(eutrancell|enodeb|eutran)", "pmcell", "pmrach", "pmmac",
       "pmrlc", "pmpdcp"])
  , (TechnologyDomain.NR,
      ["pm(nrcell|gnb|gnbdu)", "pmnr", "pmcsi", "pmdci", "pmbwp",
       "pmnumerology"])
  , (TechnologyDomain.LTE_NR,
      ["pmendc", "pmen-?dc", "pmlte-?nr", "pmdualconnectivity"])
  , (TechnologyDomain.GSM,
      ["pm(gsm|bts|bss|geran)", "pmgsmcell", "pmarfcn", "pmrxlev",
       "pmcqich"])
  , (TechnologyDomain.IoT,
      ["pm(iot|nbiot|cat-?m|emtc)", "pmnb-?iot", "pmce",
       "pmcoverage-?enhancement"]) ]

/-- Sensitivity thresholds (`_init_sensitivity_thresholds`). -/
structure Thresholds where
  min_confidence : ℚ
  primary_threshold : ℚ
  secondary_threshold : ℚ
  evidence_requirement : Nat
deriving Repr

/-- `self.thresholds`. -/
def thresholds : DetectionSensitivity → Thresholds
  | .conservative =>
    { min_confidence := 0.4, primary_threshold := 0.7
    , secondary_threshold := 0.5, evidence_requirement := 2 }
  | .balanced =>
    { min_confidence := 0.2, primary_threshold := 0.5
    , secondary_threshold := 0.3, evidence_requirement := 1 }
  | .aggressive =>
    { min_confidence := 0.1, primary_threshold := 0.3
    , secondary_threshold := 0.2, evidence_requirement := 1 }

/-- `self.cross_technology_indicators` (`_init_cross_technology_patterns`). -/
def cross_technology_indicators : List (String × List String) :=
  [ ("inter_rat_handover",
      ["inter-?rat", "rat.*handover", "inter-?technology", "lte.*to.*nr",
       "nr.*to.*lte", "handover.*rat"])
  , ("dual_connectivity",
      ["dual.*connectivity", "multi.*connectivity", "en-?dc", "mr-?dc",
       "lte-?nr"])
  , ("shared_spectrum",
      ["shared.*spectrum", "dynamic.*spectrum", "license.*assisted",
       "citizens.*broadband"])
  , ("multi_standard",
      ["multi.*standard", "hybrid.*network", "legacy.*support",
       "backward.*compatible"]) ]

/-- `TechnologyIndicators` dataclass. -/
structure TechnologyIndicators where
  domain : String
  keyword_score : ℚ := 0.0
  parameter_score : ℚ := 0.0
  counter_score : ℚ := 0.0
  feature_score : ℚ := 0.0
  network_element_score : ℚ := 0.0
  contextual_score : ℚ := 0.0
deriving Repr

/-- `TechnologyIndicators.total_score`. -/
def TechnologyIndicators.total_score (t : TechnologyIndicators) : ℚ :=
  t.keyword_score * 0.4 + t.parameter_score * 0.25 + t.counter_score * 0.2 +
    t.feature_score * 0.1 + t.network_element_score * 0.05

/-- `TechnologyIndicators.evidence_count`: number of evidence types with a
strictly positive score. -/
def TechnologyIndicators.evidence_count (t : TechnologyIndicators) : Nat :=
  [t.keyword_score, t.parameter_score, t.counter_score, t.feature_score,
   t.network_element_score].countP (fun s => s > 0)

/-- `EnhancedDomainDetection` dataclass. -/
structure EnhancedDomainDetection where
  domain : String
  relevance : ℚ
  evidence : List String
  indicators : TechnologyIndicators
  sub_domains : List String := []
  cross_technology_indicators : List String := []
  confidence_factors : List (String × ℚ) := []
deriving Repr

/-- `_calculate_keyword_match_score`: fraction of keywords present in the
text as substrings, clamped to 1.0; 0 for an empty keyword list. -/
def calculate_keyword_match_score (text : String) (keywords : List String) : ℚ :=
  if keywords.isEmpty then 0
  else min ((keywords.countP (fun keyword => strContains text keyword) : ℚ) /
      (keywords.length : ℚ)) 1

/-- `_calculate_pattern_match_score`: fraction of case-insensitive regex
patterns matching the text, clamped to 1.0; 0 for an empty pattern list. -/
def calculate_pattern_match_score (text : String) (patterns : List String) : ℚ :=
  if patterns.isEmpty then 0
  else min ((patterns.countP (fun pattern => reSearch pattern text) : ℚ) /
      (patterns.length : ℚ)) 1

/-- `_analyze_technology_indicators`.  The feature-identity score applies
`re.escape` to the feature strings, i.e. matches them literally. -/
def analyze_technology_indicators (text : String)
    (f : EnhancedEricssonFeature) (tech : String) (ind : TechTables) :
    TechnologyIndicators :=
  { domain := tech
  , keyword_score := calculate_keyword_match_score text ind.keywords
  , parameter_score := calculate_pattern_match_score
      (String.intercalate " " f.configuration.mo_classes)
      ((alistGet parameter_patterns tech).getD [])
  , counter_score := calculate_pattern_match_score
      (String.intercalate " " f.performance_monitoring.pm_counters)
      ((alistGet counter_patterns tech).getD [])
  , feature_score := calculate_pattern_match_score
      (f.name ++ " " ++ f.description) (ind.features.map reEscape)
  , network_element_score := calculate_pattern_match_score
      (String.intercalate " " f.network_element_types) ind.network_elements }

/-- `_meets_sensitivity_criteria`. -/
def meets_sensitivity_criteria (sensitivity : DetectionSensitivity)
    (ind : TechnologyIndicators) : Bool :=
  ind.total_score ≥ (thresholds sensitivity).min_confidence &&
    ind.evidence_count ≥ (thresholds sensitivity).evidence_requirement

/-- `_identify_sub_domains`. -/
def identify_sub_domains (tech : String) (text : String) : List String :=
  match alistGet technology_indicators tech with
  | none => []
  | some tables =>
    tables.sub_domains.filter (fun sub =>
      strContains text (strReplace sub "-" " ") || strContains text sub)

/-- `_analyze_cross_technology_indicators`. -/
def analyze_cross_technology_indicators (enable_cross_technology : Bool)
    (text : String) : List String :=
  if !enable_cross_technology then []
  else cross_technology_indicators.filterMap (fun (indicator_type, patterns) =>
    if patterns.any (fun pattern => reSearch pattern text) then
      some indicator_type
    else none)

/-- `_get_detailed_evidence`. -/
def get_detailed_evidence (ind : TechnologyIndicators)
    (f : EnhancedEricssonFeature) (text : String) : List String :=
  let tables := (alistGet technology_indicators ind.domain).getD
    { keywords := [], parameters := [], counters := [], features := []
    , network_elements := [], sub_domains := [] }
  (if ind.keyword_score > 0 then
    let found_keywords := tables.keywords.filter (fun kw => strContains text kw)
    if !found_keywords.isEmpty then
      ["Keywords: " ++ String.intercalate ", " (found_keywords.take 3)]
    else []
   else []) ++
  (if ind.parameter_score > 0 then
    technology_detector.firstPatternEvidence "Parameters: "
      ((alistGet parameter_patterns ind.domain).getD []) 2
      (String.intercalate " " f.configuration.mo_classes)
   else []) ++
  (if ind.counter_score > 0 then
    technology_detector.firstPatternEvidence "Counters: "
      ((alistGet counter_patterns ind.domain).getD []) 2
      (String.intercalate " " f.performance_monitoring.pm_counters)
   else []) ++
  (if ind.feature_score > 0 then
    match (tables.features.take 2).find? (fun feature_name =>
        strContains (pyLower (f.name ++ " " ++ f.description)) feature_name) with
    | some feature_name => ["Feature: " ++ feature_name]
    | none => []
   else []) ++
  (if ind.network_element_score > 0 then
    technology_detector.firstPatternEvidence "Network elements: "
      tables.network_elements 2
      (String.intercalate " " f.network_element_types)
   else [])

/-- `_create_enhanced_domain_detection`. -/
def create_enhanced_domain_detection (enable_cross_technology : Bool)
    (tech : String) (ind : TechnologyIndicators)
    (f : EnhancedEricssonFeature) (text : String) : EnhancedDomainDetection :=
  { domain := tech
  , relevance := ind.total_score
  , evidence := get_detailed_evidence ind f text
  , indicators := ind
  , sub_domains := identify_sub_domains tech text
  , cross_technology_indicators :=
      analyze_cross_technology_indicators enable_cross_technology text
  , confidence_factors :=
      [ ("keyword_strength", ind.keyword_score)
      , ("parameter_support", ind.parameter_score)
      , ("monitoring_evidence", ind.counter_score)
      , ("feature_identity", ind.feature_score)
      , ("network_element_match", ind.network_element_score) ] }

/-- `_create_default_domain_detection`. -/
def create_default_domain_detection : EnhancedDomainDetection :=
  { domain := TechnologyDomain.OTHER
  , relevance := 0.1
  , evidence := ["No specific technology detected"]
  , indicators :=
      { domain := TechnologyDomain.OTHER, keyword_score := 0.1
      , contextual_score := 0.1 } }

/-- `_create_feature_text_corpus` (identical to the legacy detector's). -/
def create_feature_text_corpus (f : EnhancedEricssonFeature) : String :=
  technology_detector.create_feature_text_corpus f

/-- The trailing `if not detected_domains: append default` block of
`detect_domains`. -/
def ensure_default (detected_domains : List EnhancedDomainDetection) :
    List EnhancedDomainDetection :=
  if detected_domains.isEmpty then
    detected_domains ++ [create_default_domain_detection]
  else detected_domains

/-- `detect_domains`: score every technology, keep those meeting the
sensitivity criteria, apply the scope filter, and fall back to the default
OTHER detection when nothing qualifies — the result is never empty. -/
def detect_domains (sensitivity : DetectionSensitivity)
    (scope : TechnologyScope) (enable_cross_technology : Bool)
    (f : EnhancedEricssonFeature) : List EnhancedDomainDetection :=
  let feature_text := create_feature_text_corpus f
  let detected_domains := technology_indicators.filterMap (fun (tech, ind) =>
    let tech_indicators := analyze_technology_indicators feature_text f tech ind
    if meets_sensitivity_criteria sensitivity tech_indicators then
      some (create_enhanced_domain_detection enable_cross_technology tech
        tech_indicators f feature_text)
    else none)
  let detected_domains :=
    match scope with
    | .basic =>
      match detected_domains with
      | [] => []
      | d :: ds => [pyMaxBy (fun x => x.indicators.total_score) d ds]
    | _ =>
      let sorted := sortDescBy (fun x => x.relevance) detected_domains
      if scope = .multi_tech then sorted.take 3 else sorted
  ensure_default detected_domains

end core_technology_detector

/-! ## The `feature_data` dictionary

The engine's entry points take a free-form dict `feature_data`; each
`Option` field below models the presence or absence of the corresponding
key (`'k' in feature_data` / `feature_data.get('k', default)`). -/

/-- The keys of `feature_data` the classification code reads. -/
structure FeatureData where
  id : Option String := none
  name : Option String := none
  description : Option String := none
  summary : Option String := none
  mo_classes : Option (List String) := none
  pm_counters : Option (List String) := none
  self_organizing : Option Bool := none
  parameters : Option (List String) := none
  counters : Option (List String) := none
  events : Option (List String) := none
  prerequisites : Option (List String) := none
  dependencies : Option (List String) := none
  conflicts : Option (List String) := none
  automation_capabilities : Option (List Bool) := none
  technology_domain : Option String := none
deriving Repr

/-! ## Ultra-granular classifier
(`src/classification/advanced/ultra_granular_classifier.py`)

The enum members (`PrimaryDomain`, `SecondarySpecialization`,
`ExpertiseLevel`, `RANExpertRole`, `UseCaseScenario`) are represented by
their distinct `.value` strings.  Only the classification fields read by
the strategy layer (`primary_domain`, `secondary_specializations`,
`required_expertise_level`, `target_roles`, `applicable_scenarios`) are
embedded; the remaining payload fields (complexity metrics, relationships,
context factors, tertiary keywords, automation/QA/impact scores) are never
read by any engine path. -/

namespace ultra_granular

/-- `ExpertiseLevel` values. -/
def L1_AWARENESS : String := "awareness"
def L2_CONFIGURATION : String := "configuration"
def L3_OPTIMIZATION : String := "optimization"
def L4_TROUBLESHOOTING : String := "troubleshooting"
def L5_ARCHITECTURE : String := "architecture"

/-- The classification record, restricted to the fields the strategy layer
reads. -/
structure UltraGranularClassification where
  primary_domain : String
  secondary_specializations : List String
  required_expertise_level : String
  target_roles : List String
  applicable_scenarios : List String
deriving Repr

/-- `_build_domain_keywords`, in source order. -/
def domain_keywords : List (String × List String) :=
  [ ("radio_access_technologies",
      ["lte", "nr", "5g", "4g", "rat", "frequency", "spectrum", "coverage",
       "cell", "sector", "antenna", "transmission", "reception"])
  , ("network_performance",
      ["throughput", "capacity", "latency", "delay", "qos", "kpi",
       "performance", "load", "congestion", "traffic", "optimization",
       "throughput"])
  , ("energy_efficiency",
      ["energy", "power", "sleep", "efficiency", "consumption", "green",
       "battery", "sustainability", "saving", "reduction"])
  , ("mobility_management",
      ["handover", "mobility", "handoff", "cell", "reselection", "movement",
       "roaming", "transition", "seamless", "ping-pong"])
  , ("advanced_features",
      ["mimo", "carrier aggregation", "ca", "beamforming", "massive",
       "mu-mimo", "su-mimo", "tm", "carrier", "component", "slicing"])
  , ("quality_assurance",
      ["test", "verification", "validation", "quality", "assurance",
       "alarm", "fault", "troubleshoot", "diagnostic", "monitoring",
       "measurement"])
  , ("network_automation",
      ["automation", "son", "self-organizing", "zero-touch", "policy",
       "script", "workflow", "orchestration", "anomaly", "prediction"])
  , ("evolution_migration",
      ["migration", "evolution", "upgrade", "transition", "legacy",
       "compatibility", "decommission", "introduction", "hybrid"]) ]

/-- `_build_specialization_patterns` (only some specializations have
pattern entries; the rest fall to the empty default). -/
def specialization_patterns : List (String × List String) :=
  [ ("deep_sleep_modes",
      ["deep sleep", "deep-sleep", "deepsleep", "micro sleep", "symbol sleep"])
  , ("light_sleep_modes",
      ["light sleep", "light-sleep", "shallow sleep", "quick sleep"])
  , ("dynamic_sleep",
      ["dynamic sleep", "adaptive sleep", "intelligent sleep", "smart sleep"])
  , ("mu_mimo", ["mu-mimo", "multi-user", "mimo mu", "multiuser mimo"])
  , ("massive_mimo",
      ["massive mimo", "mimo massive", "large scale mimo", "ls-mimo"])
  , ("beamforming",
      ["beamforming", "beam forming", "beam", "precoding", "weighting"])
  , ("intra_frequency_handover",
      ["intra-frequency handover", "intra freq", "same frequency handover"])
  , ("inter_frequency_handover",
      ["inter-frequency handover", "inter freq", "different frequency handover"])
  , ("inter_rat_handover",
      ["inter-rat", "inter radio", "lte to nr", "nr to lte", "rat handover"])
  , ("network_slicing",
      ["network slicing", "slicing", "slice", "network slice"])
  , ("self_organizing_networks",
      ["son", "self-organizing", "self organizing", "self-optimizing"])
  , ("zero_touch_deployment",
      ["zero touch", "zero-touch", "touchless", "automated deployment"]) ]

/-- `_get_specializations_for_domain` (`domain_mapping`; domains without an
entry map to the empty list). -/
def get_specializations_for_domain (domain : String) : List String :=
  (alistGet
    [ ("radio_access_technologies",
        ["lte_advanced", "nr_millimeter_wave", "tdd_fdd",
         "coverage_optimization", "capacity_expansion"])
    , ("energy_efficiency",
        ["deep_sleep_modes", "light_sleep_modes", "dynamic_sleep",
         "network_sleep", "power_scaling"])
    , ("mobility_management",
        ["intra_frequency_handover", "inter_frequency_handover",
         "inter_rat_handover", "cell_reselection", "mobility_robustness"])
    , ("advanced_features",
        ["su_mimo", "mu_mimo", "massive_mimo", "beamforming",
         "intra_band_ca", "inter_band_ca", "network_slicing"])
    , ("network_automation",
        ["zero_touch_deployment", "self_organizing_networks",
         "scripted_optimization", "anomaly_detection"]) ] domain).getD []

/-- `_classify_primary_domain`: keyword hit counts per domain; the first
domain attaining the maximum wins; all-zero scores default to
`advanced_features`. -/
def classify_primary_domain (text : String) : String :=
  let domain_scores := domain_keywords.map (fun (domain, keywords) =>
    (domain, (keywords.countP (fun keyword => strContains text keyword) : ℚ)))
  match domain_scores with
  | [] => "advanced_features"
  | d :: ds =>
    if (pyMaxBy (fun p => p.2) d ds).2 = 0 then "advanced_features"
    else (pyMaxBy (fun p => p.2) d ds).1

/-- `_classify_secondary_specializations`. -/
def classify_secondary_specializations (text : String)
    (primary_domain : String) : List String :=
  (get_specializations_for_domain primary_domain).filter (fun spec =>
    ((alistGet specialization_patterns spec).getD []).any
      (fun pattern => strContains text pattern))

/-- `_determine_expertise_level`. -/
def determine_expertise_level (fd : FeatureData) : String :=
  let combined_text := (pyLower (fd.description.getD "")) ++ " " ++
    (pyLower (fd.summary.getD ""))
  let param_count := (fd.parameters.getD []).length
  let counter_count := (fd.counters.getD []).length
  let levelHit (indicators : List String) : Bool :=
    indicators.any (fun indicator => strContains combined_text indicator)
  let expertise_score : ℚ :=
    (if levelHit ["simple", "basic", "straightforward", "easy"] then 1 else 0) +
    (if levelHit ["configurable", "moderate", "flexible"] then 2 else 0) +
    (if levelHit ["complex", "advanced", "sophisticated"] then 3 else 0) +
    (if levelHit ["expert", "specialized", "intricate", "comprehensive"] then 4 else 0) +
    (if param_count > 20 then 2 else if param_count > 10 then 1
     else if param_count > 5 then 0.5 else 0) +
    (if counter_count > 15 then 1 else if counter_count > 8 then 0.5 else 0)
  if expertise_score ≥ 5 then L5_ARCHITECTURE
  else if expertise_score ≥ 4 then L4_TROUBLESHOOTING
  else if expertise_score ≥ 3 then L3_OPTIMIZATION
  else if expertise_score ≥ 2 then L2_CONFIGURATION
  else L1_AWARENESS

/-- Role keyword table of `_determine_target_roles`. -/
def role_keywords : List (String × List String) :=
  [ ("radio_access_planner",
      ["plan", "design", "architecture", "coverage", "capacity"])
  , ("performance_specialist",
      ["performance", "optimization", "kpi", "throughput", "latency"])
  , ("field_engineer", ["deployment", "configuration", "maintenance", "site"])
  , ("automation_engineer", ["automation", "script", "son", "zero-touch"])
  , ("troubleshooting_expert", ["troubleshoot", "fault", "alarm", "diagnostic"])
  , ("energy_manager", ["energy", "power", "efficiency", "consumption", "green"])
  , ("quality_assurance_engineer",
      ["test", "verification", "quality", "assurance"])
  , ("network_architect", ["architecture", "design", "strategy", "evolution"]) ]

/-- `_determine_target_roles`. -/
def determine_target_roles (text : String) (expertise : String) :
    List String :=
  let roles := role_keywords.filterMap (fun (role, keywords) =>
    if keywords.any (fun keyword => strContains text keyword) then some role
    else none)
  let roles :=
    if (expertise = L4_TROUBLESHOOTING || expertise = L5_ARCHITECTURE) &&
        !roles.contains "troubleshooting_expert" then
      roles ++ ["troubleshooting_expert"]
    else roles
  let roles :=
    if expertise = L5_ARCHITECTURE && !roles.contains "network_architect" then
      roles ++ ["network_architect"]
    else roles
  if roles.isEmpty then ["field_engineer"] else roles

/-- Scenario keyword table of `_determine_use_case_scenarios`. -/
def scenario_keywords : List (String × List String) :=
  [ ("network_planning", ["plan", "design", "dimensioning", "rollout"])
  , ("feature_deployment", ["deploy", "activate", "configure", "setup"])
  , ("performance_optimization", ["optimize", "tune", "improve", "enhance"])
  , ("maintenance", ["maintain", "operate", "run", "manage"])
  , ("troubleshooting", ["troubleshoot", "debug", "fix", "resolve"])
  , ("capacity_expansion", ["capacity", "expand", "scale", "growth"])
  , ("technology_upgrade", ["upgrade", "migrate", "evolve", "transition"])
  , ("energy_optimization", ["energy", "power", "efficiency", "consumption"]) ]

/-- `_determine_use_case_scenarios`. -/
def determine_use_case_scenarios (text : String) : List String :=
  let scenarios := scenario_keywords.filterMap (fun (scenario, keywords) =>
    if keywords.any (fun keyword => strContains text keyword) then
      some scenario
    else none)
  if scenarios.isEmpty then ["feature_deployment"] else scenarios

/-- `UltraGranularClassifier.classify_feature` (restricted to the fields
the strategy layer reads). -/
def classify_feature (fd : FeatureData) : UltraGranularClassification :=
  let name := (pyLower (fd.name.getD ""))
  let description := (pyLower (fd.description.getD ""))
  let summary := (pyLower (fd.summary.getD ""))
  let combined_text := name ++ " " ++ description ++ " " ++ summary
  let primary_domain := classify_primary_domain combined_text
  let expertise_level := determine_expertise_level fd
  { primary_domain := primary_domain
  , secondary_specializations :=
      classify_secondary_specializations combined_text primary_domain
  , required_expertise_level := expertise_level
  , target_roles := determine_target_roles combined_text expertise_level
  , applicable_scenarios := determine_use_case_scenarios combined_text }

end ultra_granular

/-! ## Unified classification engine
(`src/classification/unified_classifier.py`)

`ULTRA_GRANULAR_AVAILABLE` is decided at import time: the import of
`.advanced.ultra_granular_classifier` also executes the `advanced`
package's `__init__`, which imports a `specialized_roles` module that is
not among the sources, so the flag's runtime value depends on the deployed
tree.  It is modelled as an explicit Boolean parameter and the claims are
settled for both values.

Python exceptions raised by a strategy are modelled as `Except String`;
the only strategy that can raise is the legacy-advanced one (Python's
`max` on an empty score dict). -/

namespace unified_classifier

/-- `ClassificationMode` enum. -/
inductive ClassificationMode where
  | legacy_advanced | legacy_unified | ultra_granular
  | strategy_hybrid | strategy_adaptive | unified_core
deriving DecidableEq, Repr

/-- `.value` string of a classification mode. -/
def ClassificationMode.value : ClassificationMode → String
  | .legacy_advanced => "legacy_advanced"
  | .legacy_unified => "legacy_unified"
  | .ultra_granular => "ultra_granular"
  | .strategy_hybrid => "strategy_hybrid"
  | .strategy_adaptive => "strategy_adaptive"
  | .unified_core => "unified_core"

/-- `GranularityLevel` enum. -/
inductive GranularityLevel where
  | minimal | basic | standard | detailed | comprehensive | expert
deriving DecidableEq, Repr

/-- `UnifiedClassificationResult` dataclass.  The wall-clock
`processing_time_ms`, the `ultra_granular` debug payload and the
`legacy_*_result` back-references are runtime-only fields, omitted here. -/
structure UnifiedClassificationResult where
  primary_category : String
  confidence : ℚ
  evidence : List String := []
  secondary_categories : List (String × ℚ) := []
  technology_domains : List String := []
  skill_level : String := "unknown"
  target_roles : List String := []
  use_case_scenarios : List String := []
  mode : ClassificationMode := .legacy_advanced
  granularity : GranularityLevel := .basic
  strategy_used : String := "unknown"
deriving Repr

/-- A strategy's `classify(name, content, feature_data)`; `.error` models a
raised Python exception carrying its message. -/
abbrev StrategyFn :=
  String → String → FeatureData → Except String UnifiedClassificationResult

/-- `LegacyAdvancedStrategy._create_enhanced_feature`. -/
def create_enhanced_feature (name content : String) (fd : FeatureData) :
    EnhancedEricssonFeature :=
  { id := fd.id.getD "unknown"
  , name := name
  , description := content
  , configuration := { mo_classes := fd.mo_classes.getD [] }
  , performance_monitoring := { pm_counters := fd.pm_counters.getD [] }
  , automation := { self_organizing := fd.self_organizing.getD false } }

/-- `LegacyAdvancedStrategy.classify`.  A `SkillAssessment` dataclass
instance is always truthy, so the source's `else "unknown"` branch for the
skill level is dead; `role_relevance` always carries all eight roles, so
`target_roles` is their key list. -/
def LegacyAdvancedStrategy.classify : StrategyFn := fun name content fd =>
  let feature := create_enhanced_feature name content fd
  match feature_classifier.classify_feature feature with
  | none => .error "max() arg is an empty sequence"
  | some classification =>
    .ok
      { primary_category := classification.get_primary_category
      , confidence := classification.classification_confidence
      , evidence := classification.primary_classification.evidence
      , secondary_categories := classification.secondary_classifications.map
          (fun score => (score.category, score.score))
      , technology_domains := classification.domain_detections.map
          (fun d => d.domain)
      , skill_level := classification.skill_assessment.level
      , target_roles := classification.role_relevance.map (fun p => p.1)
      , use_case_scenarios :=
          if classification.use_case_classification ≠ "" then
            [classification.use_case_classification]
          else []
      , mode := .legacy_advanced
      , strategy_used := "legacy_advanced" }

/-- `LegacyUnifiedStrategy._fallback_classification`: keyword-only
classification with confidence 0.6.  All list-valued fields other than
`evidence` are left at their empty defaults. -/
def fallback_classification (content : String) :
    UnifiedClassificationResult :=
  let content_lower := (pyLower content)
  let hasAny (words : List String) : Bool :=
    words.any (fun word => strContains content_lower word)
  let category :=
    if hasAny ["energy", "power", "sleep", "saving"] then
      PrimaryCategory.ENERGY_EFFICIENCY
    else if hasAny ["mimo", "antenna", "beamforming", "spatial"] then
      PrimaryCategory.ANTENNA_MIMO
    else if hasAny ["handover", "mobility", "handoff"] then
      PrimaryCategory.MOBILITY_MANAGEMENT
    else if hasAny ["carrier", "aggregation", "ca"] then
      PrimaryCategory.CARRIER_AGGREGATION
    else if hasAny ["voice", "video", "volte"] then
      PrimaryCategory.VOICE_VIDEO
    else if hasAny ["security", "encryption", "authentication"] then
      PrimaryCategory.SECURITY
    else if hasAny ["slicing", "nssai", "slice"] then
      PrimaryCategory.NETWORK_SLICING
    else PrimaryCategory.GENERAL
  { primary_category := category
  , confidence := 0.6
  , evidence := ["Keyword-based: " ++ category]
  , mode := .legacy_unified
  , strategy_used := "fallback_unified" }

/-- `LegacyUnifiedStrategy.classify`.  The strategy invokes
`self.classifier.classify_feature(name, content, feature_data)`, but
`UnifiedFeatureClassifier.classify_feature` (core/base_classifier.py)
accepts a single `feature` argument, so the call always raises
`TypeError`, which the surrounding `except Exception` turns into the
keyword-only fallback.  The strategy therefore always returns
`_fallback_classification`. -/
def LegacyUnifiedStrategy.classify : StrategyFn := fun _name content _fd =>
  .ok (fallback_classification content)

/-- `UltraGranularStrategy.classify` (constructible only when the
ultra-granular import succeeded). -/
def UltraGranularStrategy.classify : StrategyFn := fun _name _content fd =>
  let classification := ultra_granular.classify_feature fd
  .ok
    { primary_category := classification.primary_domain
    , confidence := 0.9
    , evidence := ["Primary: " ++ classification.primary_domain]
    , secondary_categories := classification.secondary_specializations.map
        (fun spec => (spec, 0.8))
    , technology_domains := [fd.technology_domain.getD "unknown"]
    , skill_level := classification.required_expertise_level
    , target_roles := classification.target_roles
    , use_case_scenarios := classification.applicable_scenarios
    , mode := .ultra_granular
    , strategy_used := "ultra_granular" }

/-- `HybridStrategy.__init__`: the sub-strategy dict, in insertion order. -/
def hybrid_strategies (ultra_available : Bool) : List (String × StrategyFn) :=
  [("advanced", LegacyAdvancedStrategy.classify),
   ("unified", LegacyUnifiedStrategy.classify)] ++
  (if ultra_available then
    [("ultra_granular", UltraGranularStrategy.classify)]
  else [])

/-- `HybridStrategy._basic_fallback`. -/
def basic_fallback (content : String) : UnifiedClassificationResult :=
  let content_lower := (pyLower content)
  let hasAny (words : List String) : Bool :=
    words.any (fun word => strContains content_lower word)
  let category :=
    if hasAny ["energy", "power", "sleep"] then
      PrimaryCategory.ENERGY_EFFICIENCY
    else if hasAny ["mimo", "antenna", "beam"] then
      PrimaryCategory.ANTENNA_MIMO
    else if hasAny ["handover", "mobility"] then
      PrimaryCategory.MOBILITY_MANAGEMENT
    else if hasAny ["carrier", "aggregation", "ca"] then
      PrimaryCategory.CARRIER_AGGREGATION
    else PrimaryCategory.GENERAL
  { primary_category := category
  , confidence := 0.5
  , evidence := ["Keyword-based: " ++ category]
  , mode := .strategy_hybrid
  , strategy_used := "fallback_basic" }

/-- The union of the technology domains of all results.  The source builds
a Python `set` and lists it (`list(all_domains)`), whose iteration order
is unspecified; it is modelled as a first-occurrence dedup.  No claim
depends on the order of this field. -/
def union_domains (results : List (String × UnifiedClassificationResult)) :
    List String :=
  results.foldl (fun acc (_, result) =>
    acc ++ result.technology_domains.filter (fun d => !acc.contains d)) []

/-- The per-category score grouping of `HybridStrategy.classify` (the
`all_secondary` defaultdict loop, lines 382–385): every
`(category, score)` pair of every result is appended to its category's
list, in traversal order. -/
def all_secondary_groups
    (results : List (String × UnifiedClassificationResult)) :
    List (String × List ℚ) :=
  results.foldl (fun acc r =>
    r.2.secondary_categories.foldl (fun acc p => groupAdd acc p.1 p.2) acc) []

/-- The combination step of `HybridStrategy.classify` (lines 378–410),
applied to the non-empty list of per-strategy successes: the primary
result is the first one attaining the maximum confidence, and the
secondary scores are averaged per category across the strategies that
reported the category. -/
def hybrid_combine (r0 : String × UnifiedClassificationResult)
    (rest : List (String × UnifiedClassificationResult)) :
    UnifiedClassificationResult :=
  let primary := pyMaxBy (fun p => p.2.confidence) r0 rest
  let primary_strategy_name := primary.1
  let primary_result := primary.2
  let combined_secondary := (all_secondary_groups (r0 :: rest)).map
    (fun g => (g.1, g.2.sum / (g.2.length : ℚ)))
  { primary_category := primary_result.primary_category
  , confidence := primary_result.confidence
  , evidence := primary_result.evidence
  , secondary_categories := combined_secondary
  , technology_domains := union_domains (r0 :: rest)
  , skill_level := primary_result.skill_level
  , target_roles := primary_result.target_roles
  , use_case_scenarios := primary_result.use_case_scenarios
  , mode := .strategy_hybrid
  , strategy_used := "hybrid_primary_" ++ primary_strategy_name }

/-- `HybridStrategy.classify`: run every sub-strategy, swallowing
per-strategy exceptions; combine the successes, or fall back when all
fail. -/
def HybridStrategy.classify (ultra_available : Bool) : StrategyFn :=
  fun name content fd =>
    let results := (hybrid_strategies ultra_available).filterMap
      (fun (strategy_name, strategy) =>
        match strategy name content fd with
        | .ok result => some (strategy_name, result)
        | .error _ => none)
    match results with
    | [] => .ok (basic_fallback content)
    | r :: rest => .ok (hybrid_combine r rest)

/-- The high-complexity technical terms of
`AdaptiveStrategy._analyze_complexity`. -/
def technical_terms : List String :=
  ["optimization", "algorithm", "machine learning", "ai", "prediction",
   "dynamic", "adaptive", "coordination", "synchronization"]

/-- `AdaptiveStrategy._analyze_complexity`: integer complexity score,
capped at 10. -/
def analyze_complexity (_name content : String) (fd : FeatureData) : Nat :=
  let score := 0
  let score := score +
    (if content.length > 1000 then 2 else if content.length > 500 then 1 else 0)
  let score := score +
    (match fd.parameters with
     | some params =>
       if params.length > 10 then 2 else if params.length > 5 then 1 else 0
     | none => 0)
  let score := score +
    (match fd.pm_counters with
     | some counters =>
       if counters.length > 20 then 2
       else if counters.length > 10 then 1 else 0
     | none => 0)
  let term_count := technical_terms.countP
    (fun term => strContains (pyLower content) term)
  let score := score + min term_count 2
  let score := score +
    (if fd.prerequisites.isSome || fd.dependencies.isSome ||
        fd.conflicts.isSome then 1 else 0)
  min score 10

/-- The tier-selection conditional of `AdaptiveStrategy.classify`
(lines 464–471): complexity below 3 picks the simple tier, below 7 picks
standard, and at 7 or above picks the complex (ultra-granular) tier when
available, otherwise standard. -/
def choose_tier (complexity_score : Nat) (ultra_available : Bool) : String :=
  if complexity_score < 3 then "simple"
  else if complexity_score < 7 then "standard"
  else if ultra_available then "complex"
  else "standard"

/-- `AdaptiveStrategy.classify`: dispatch on the analysed complexity and
restamp the result's metadata.  A failure of the chosen sub-strategy is
not caught here and propagates. -/
def AdaptiveStrategy.classify (ultra_available : Bool) : StrategyFn :=
  fun name content fd =>
    let complexity_score := analyze_complexity name content fd
    let strategy_name := choose_tier complexity_score ultra_available
    let strategy : StrategyFn :=
      if strategy_name = "simple" then LegacyAdvancedStrategy.classify
      else if strategy_name = "complex" then UltraGranularStrategy.classify
      else LegacyUnifiedStrategy.classify
    match strategy name content fd with
    | .error e => .error e
    | .ok result =>
      .ok { result with
            mode := .strategy_adaptive
          , strategy_used := "adaptive_" ++ strategy_name ++ "_complexity_" ++
              toString complexity_score }

/-- The engine's error kinds: the hard unknown-mode `ValueError` (carrying
the requested mode and the available mode set) and a propagated strategy
exception. -/
inductive EngineError where
  | unknownMode (mode : ClassificationMode)
      (available : List ClassificationMode)
  | strategyFailure (msg : String)
deriving DecidableEq, Repr

/-- `str(e)` of an engine error (the unknown-mode message renders the mode
and the available-mode list, abbreviated relative to CPython's enum
`repr`; the claim-relevant content is carried structurally by
`EngineError.unknownMode`). -/
def EngineError.message : EngineError → String
  | .unknownMode mode available =>
    "Mode ClassificationMode." ++ mode.value ++
      " not available. Available modes: [" ++
      String.intercalate ", "
        (available.map (fun m => "ClassificationMode." ++ m.value)) ++ "]"
  | .strategyFailure msg => msg

/-- `UnifiedClassificationEngine`: the mode→strategy dict built once at
initialization, plus the default mode. -/
structure Engine where
  default_mode : ClassificationMode := .strategy_adaptive
  strategies : List (ClassificationMode × StrategyFn)

/-- Dict lookup `self.strategies[mode]` / `mode in self.strategies`. -/
def findStrategy : List (ClassificationMode × StrategyFn) →
    ClassificationMode → Option StrategyFn
  | [], _ => none
  | (m, s) :: rest, mode => if m = mode then some s else findStrategy rest mode

/-- `get_available_modes` (`list(self.strategies.keys())`). -/
def Engine.available_modes (e : Engine) : List ClassificationMode :=
  e.strategies.map (fun p => p.1)

/-- `_apply_granularity`: record the granularity, then trim
secondary categories / technology domains / evidence according to the
level; `detailed` and higher-than-standard levels keep all data. -/
def apply_granularity (result : UnifiedClassificationResult)
    (granularity : GranularityLevel) : UnifiedClassificationResult :=
  let result := { result with granularity := granularity }
  match granularity with
  | .minimal =>
    { result with secondary_categories := [], technology_domains := []
                , evidence := [] }
  | .basic =>
    { result with secondary_categories := result.secondary_categories.take 3
                , technology_domains := result.technology_domains.take 3 }
  | .standard =>
    { result with secondary_categories := result.secondary_categories.take 5 }
  | _ => result

/-- `UnifiedClassificationEngine.classify_feature`: resolve the mode
(default when omitted), fail hard on an unavailable mode, run the
strategy (its exceptions propagate), then optionally apply a granularity
filter. -/
def Engine.classify_feature (e : Engine) (name content : String)
    (fd : FeatureData) (mode : Option ClassificationMode := none)
    (granularity : Option GranularityLevel := none) :
    Except EngineError UnifiedClassificationResult :=
  let mode := mode.getD e.default_mode
  match findStrategy e.strategies mode with
  | none => .error (.unknownMode mode e.available_modes)
  | some strategy =>
    match strategy name content fd with
    | .error msg => .error (.strategyFailure msg)
    | .ok result =>
      .ok (match granularity with
           | some g => apply_granularity result g
           | none => result)

/-- The per-item error result substituted by `classify_batch`. -/
def batch_error_result (e : Engine) (mode : Option ClassificationMode)
    (err : EngineError) : UnifiedClassificationResult :=
  { primary_category := "error"
  , confidence := 0.0
  , evidence := ["Classification error: " ++ err.message]
  , mode := mode.getD e.default_mode
  , strategy_used := "error" }

/-- `UnifiedClassificationEngine.classify_batch`: apply the single-item
path to each input independently, substituting an explicit error result
for an item whose classification raises. -/
def Engine.classify_batch (e : Engine)
    (features : List (String × String × FeatureData))
    (mode : Option ClassificationMode := none) :
    List UnifiedClassificationResult :=
  features.map (fun (name, content, fd) =>
    match e.classify_feature name content fd mode none with
    | .ok result => result
    | .error err => batch_error_result e mode err)

/-- `_initialize_strategies`: every strategy constructor succeeds (the
ultra-granular one is guarded by the availability flag), so the dict holds
all modes but `unified_core` (and `ultra_granular` only when available). -/
def initialize_strategies (ultra_available : Bool) :
    List (ClassificationMode × StrategyFn) :=
  [(.legacy_advanced, LegacyAdvancedStrategy.classify),
   (.legacy_unified, LegacyUnifiedStrategy.classify)] ++
  (if ultra_available then
    [(.ultra_granular, UltraGranularStrategy.classify)]
  else []) ++
  [(.strategy_hybrid, HybridStrategy.classify ultra_available),
   (.strategy_adaptive, AdaptiveStrategy.classify ultra_available)]

/-- The module-level engine instance (`unified_classifier`), default mode
adaptive. -/
def defaultEngine (ultra_available : Bool) : Engine :=
  { default_mode := .strategy_adaptive
  , strategies := initialize_strategies ultra_available }

end unified_classifier

/-! ## Lemmas about the Python-semantics utilities -/

/-- The first-maximum step function is associative. -/
theorem pyMaxStep_assoc (f : α → ℚ) (a b c : α) :
    pyMaxStep f (pyMaxStep f a b) c = pyMaxStep f a (pyMaxStep f b c) := by
  unfold pyMaxStep
  split_ifs <;> first | rfl | linarith

/-- Folding the first-maximum step commutes with one leading step. -/
theorem foldl_pyMaxStep (f : α → ℚ) :
    ∀ (l : List α) (a b : α),
      l.foldl (pyMaxStep f) (pyMaxStep f a b) =
        pyMaxStep f a (l.foldl (pyMaxStep f) b) := by
  intro l
  induction l with
  | nil => intro a b; rfl
  | cons c l ih =>
    intro a b
    show l.foldl (pyMaxStep f) (pyMaxStep f (pyMaxStep f a b) c) = _
    rw [pyMaxStep_assoc, ih]
    rfl

/-- `pyMaxBy` returns an element of the list it maximises over. -/
theorem pyMaxBy_mem (f : α → ℚ) :
    ∀ (l : List α) (a : α), pyMaxBy f a l ∈ a :: l := by
  intro l
  induction l with
  | nil => intro a; simp [pyMaxBy]
  | cons b l ih =>
    intro a
    have hrw : pyMaxBy f a (b :: l) = pyMaxBy f (pyMaxStep f a b) l := rfl
    rw [hrw]
    rcases List.mem_cons.mp (ih (pyMaxStep f a b)) with h | h
    · rw [h]
      unfold pyMaxStep
      split
      · exact List.mem_cons_of_mem a (List.mem_cons_self b l)
      · exact List.mem_cons_self a (b :: l)
    · exact List.mem_cons_of_mem a (List.mem_cons_of_mem b h)

/-- `pyMaxBy` dominates every element of the list. -/
theorem pyMaxBy_ge (f : α → ℚ) :
    ∀ (l : List α) (a : α), ∀ x ∈ a :: l, f x ≤ f (pyMaxBy f a l) := by
  intro l
  induction l with
  | nil =>
    intro a x hx
    rw [List.mem_singleton] at hx
    subst hx
    exact le_refl _
  | cons b l ih =>
    intro a x hx
    have hrw : pyMaxBy f a (b :: l) = pyMaxBy f (pyMaxStep f a b) l := rfl
    have ha : f a ≤ f (pyMaxStep f a b) := by
      unfold pyMaxStep
      split_ifs with h
      · linarith
      · exact le_refl _
    have hb : f b ≤ f (pyMaxStep f a b) := by
      unfold pyMaxStep
      split_ifs with h
      · exact le_refl _
      · linarith
    have hm : f (pyMaxStep f a b) ≤ f (pyMaxBy f (pyMaxStep f a b) l) :=
      ih (pyMaxStep f a b) (pyMaxStep f a b) (List.mem_cons_self _ _)
    rw [hrw]
    rcases List.mem_cons.mp hx with h | h
    · subst h
      exact le_trans ha hm
    rcases List.mem_cons.mp h with h2 | h2
    · subst h2
      exact le_trans hb hm
    · exact ih (pyMaxStep f a b) x (List.mem_cons_of_mem _ h2)

/-- Stable insertion permutes the insertion. -/
theorem insortBy_perm (f : α → ℚ) (a : α) :
    ∀ l : List α, List.Perm (insortBy f a l) (a :: l) := by
  intro l
  induction l with
  | nil => exact List.Perm.refl _
  | cons b l ih =>
    show List.Perm (if f a ≥ f b then a :: b :: l else b :: insortBy f a l) _
    split_ifs
    · exact List.Perm.refl _
    · exact (ih.cons b).trans (List.Perm.swap a b l)

/-- The embedded stable sort is a permutation of its input. -/
theorem sortDescBy_perm (f : α → ℚ) :
    ∀ l : List α, List.Perm (sortDescBy f l) l := by
  intro l
  induction l with
  | nil => exact List.Perm.refl _
  | cons a l ih =>
    exact (insortBy_perm f a (sortDescBy f l)).trans (ih.cons a)

/-- Head of a stable insertion. -/
theorem insortBy_head (f : α → ℚ) (a b : α) (l : List α) :
    (insortBy f a (b :: l)).head? =
      some (if f a ≥ f b then a else b) := by
  show (if f a ≥ f b then a :: b :: l else b :: insortBy f a l).head? = _
  split_ifs <;> rfl

/-- The head of the stable descending sort of `a :: l` is exactly Python's
`max(a :: l, key=f)` (the first element attaining the maximum). -/
theorem sortDescBy_head (f : α → ℚ) :
    ∀ (l : List α) (a : α),
      (sortDescBy f (a :: l)).head? = some (pyMaxBy f a l) := by
  intro l
  induction l with
  | nil => intro a; rfl
  | cons b l ih =>
    intro a
    show (insortBy f a (sortDescBy f (b :: l))).head? = _
    rcases hs : sortDescBy f (b :: l) with _ | ⟨h, t⟩
    · exfalso
      have hp := sortDescBy_perm f (b :: l)
      rw [hs] at hp
      have := hp.length_eq
      simp at this
    · have hh : h = pyMaxBy f b l := by
        have h2 := ih b
        rw [hs] at h2
        have h3 : some h = some (pyMaxBy f b l) := h2
        exact Option.some.inj h3
      have hfold : pyMaxBy f a (b :: l) = pyMaxStep f a (pyMaxBy f b l) := by
        show List.foldl (pyMaxStep f) (pyMaxStep f a b) l = _
        exact foldl_pyMaxStep f l a b
      rw [insortBy_head, hh, hfold]
      unfold pyMaxStep
      split_ifs with h1 h2 h3 <;> first | rfl | (exfalso; linarith)

/-- Keys after a `defaultdict(float)` update: unchanged if present,
appended otherwise. -/
theorem dictAdd_keys (l : List (String × ℚ)) (k : String) (v : ℚ) :
    (dictAdd l k v).map Prod.fst =
      if k ∈ l.map Prod.fst then l.map Prod.fst
      else l.map Prod.fst ++ [k] := by
  induction l with
  | nil => simp [dictAdd]
  | cons p l ih =>
    obtain ⟨k', v'⟩ := p
    show (if k' = k then (k', v' + v) :: l else (k', v') :: dictAdd l k v).map Prod.fst = _
    by_cases h : k' = k
    · subst h
      simp [List.mem_cons]
    · rw [if_neg h]
      by_cases hm : k ∈ l.map Prod.fst
      · simp [List.map_cons, ih, hm, List.mem_cons, Ne.symm h]
      · simp [List.map_cons, ih, hm, List.mem_cons, Ne.symm h]

/-- A `defaultdict(float)` update preserves key distinctness. -/
theorem dictAdd_nodup (l : List (String × ℚ)) (k : String) (v : ℚ)
    (h : (l.map Prod.fst).Nodup) : ((dictAdd l k v).map Prod.fst).Nodup := by
  rw [dictAdd_keys]
  split_ifs with hk
  · exact h
  · rw [List.nodup_append]
    refine ⟨h, List.nodup_singleton k, ?_⟩
    intro a ha hb
    rw [List.mem_singleton] at hb
    subst hb
    exact hk ha

/-- Nonnegative dict values are preserved by a nonnegative update. -/
theorem dictAdd_nonneg (k : String) (v : ℚ) (hv : 0 ≤ v) :
    ∀ l : List (String × ℚ), (∀ p ∈ l, 0 ≤ p.2) →
      ∀ p ∈ dictAdd l k v, 0 ≤ p.2 := by
  intro l
  induction l with
  | nil =>
    intro _ p hp
    have hrw : dictAdd [] k v = [(k, v)] := rfl
    rw [hrw, List.mem_singleton] at hp
    subst hp
    exact hv
  | cons q l ih =>
    obtain ⟨k', v'⟩ := q
    intro hl p hp
    have hrw : dictAdd ((k', v') :: l) k v =
        if k' = k then (k', v' + v) :: l else (k', v') :: dictAdd l k v := rfl
    rw [hrw] at hp
    by_cases h : k' = k
    · rw [if_pos h] at hp
      rcases List.mem_cons.mp hp with h2 | h2
      · subst h2
        have hv' := hl (k', v') (List.mem_cons_self _ _)
        exact add_nonneg hv' hv
      · exact hl p (List.mem_cons_of_mem _ h2)
    · rw [if_neg h] at hp
      rcases List.mem_cons.mp hp with h2 | h2
      · subst h2
        exact hl (k', v') (List.mem_cons_self _ _)
      · exact ih (fun q hq => hl q (List.mem_cons_of_mem _ hq)) p h2

/-- `foldl` preserves any invariant preserved by its step function. -/
theorem foldl_invariant {α β : Type _} (P : α → Prop) (step : α → β → α)
    (h : ∀ a b, P a → P (step a b)) :
    ∀ (l : List β) (a : α), P a → P (l.foldl step a) := by
  intro l
  induction l with
  | nil => intro a ha; exact ha
  | cons b l ih => intro a ha; exact ih (step a b) (h a b ha)

/-! ## Claim C6: the granularity filter -/

namespace unified_classifier

/-- The fields the granularity filter never touches. -/
def untrimmedFieldsEq (r' r : UnifiedClassificationResult) : Prop :=
  r'.primary_category = r.primary_category ∧ r'.confidence = r.confidence ∧
  r'.skill_level = r.skill_level ∧ r'.target_roles = r.target_roles ∧
  r'.use_case_scenarios = r.use_case_scenarios ∧ r'.mode = r.mode ∧
  r'.strategy_used = r.strategy_used

/-- C6 — For every classification result, the granularity filter at level
minimal empties secondary categories, technology domains and evidence;
basic keeps the first 3 secondary categories and first 3 technology
domains; standard keeps the first 5 secondary categories; detailed,
comprehensive and expert leave the trimmed fields untouched; and at every
level the recorded granularity is updated while the primary category,
confidence, skill level, target roles, use-case scenarios, mode and
strategy are unchanged. -/
theorem apply_granularity_spec (r : UnifiedClassificationResult) :
    ((apply_granularity r .minimal).secondary_categories = [] ∧
     (apply_granularity r .minimal).technology_domains = [] ∧
     (apply_granularity r .minimal).evidence = []) ∧
    ((apply_granularity r .basic).secondary_categories =
        r.secondary_categories.take 3 ∧
     (apply_granularity r .basic).technology_domains =
        r.technology_domains.take 3 ∧
     (apply_granularity r .basic).evidence = r.evidence) ∧
    ((apply_granularity r .standard).secondary_categories =
        r.secondary_categories.take 5 ∧
     (apply_granularity r .standard).technology_domains =
        r.technology_domains ∧
     (apply_granularity r .standard).evidence = r.evidence) ∧
    ((apply_granularity r .detailed).secondary_categories =
        r.secondary_categories ∧
     (apply_granularity r .detailed).technology_domains =
        r.technology_domains ∧
     (apply_granularity r .detailed).evidence = r.evidence) ∧
    ((apply_granularity r .comprehensive).secondary_categories =
        r.secondary_categories ∧
     (apply_granularity r .comprehensive).technology_domains =
        r.technology_domains ∧
     (apply_granularity r .comprehensive).evidence = r.evidence) ∧
    ((apply_granularity r .expert).secondary_categories =
        r.secondary_categories ∧
     (apply_granularity r .expert).technology_domains =
        r.technology_domains ∧
     (apply_granularity r .expert).evidence = r.evidence) ∧
    (∀ g : GranularityLevel, (apply_granularity r g).granularity = g ∧
      untrimmedFieldsEq (apply_granularity r g) r) := by
  refine ⟨⟨rfl, rfl, rfl⟩, ⟨rfl, rfl, rfl⟩, ⟨rfl, rfl, rfl⟩,
    ⟨rfl, rfl, rfl⟩, ⟨rfl, rfl, rfl⟩, ⟨rfl, rfl, rfl⟩, ?_⟩
  intro g
  cases g <;> exact ⟨rfl, rfl, rfl, rfl, rfl, rfl, rfl, rfl⟩

/-! ## Claim C4: unknown mode fails fast -/

/-- A mode outside the key set of the strategy dict is not found. -/
theorem findStrategy_eq_none
    (strategies : List (ClassificationMode × StrategyFn))
    (mode : ClassificationMode)
    (h : mode ∉ strategies.map Prod.fst) :
    findStrategy strategies mode = none := by
  induction strategies with
  | nil => rfl
  | cons p rest ih =>
    obtain ⟨m, s⟩ := p
    show (if m = mode then some s else findStrategy rest mode) = none
    rw [if_neg, ih]
    · intro hm
      exact h (by simp [hm])
    · intro hm
      subst hm
      exact h (by simp)

/-- C4 — For every engine, requesting a mode that is not in the set of
available (constructed) strategies makes `classify_feature` fail with the
explicit unknown-mode error that carries the requested mode and the list
of available modes; no strategy runs and no other mode is silently
substituted (the call returns no classification result). -/
theorem classify_feature_unknown_mode (e : Engine)
    (mode : ClassificationMode) (name content : String) (fd : FeatureData)
    (granularity : Option GranularityLevel)
    (h : mode ∉ e.available_modes) :
    e.classify_feature name content fd (some mode) granularity =
      .error (.unknownMode mode e.available_modes) := by
  have hrw : e.classify_feature name content fd (some mode) granularity =
      (match findStrategy e.strategies mode with
       | none => .error (.unknownMode mode e.available_modes)
       | some strategy =>
         match strategy name content fd with
         | .error msg => .error (.strategyFailure msg)
         | .ok result =>
           .ok (match granularity with
                | some g => apply_granularity result g
                | none => result)) := rfl
  rw [hrw, findStrategy_eq_none e.strategies mode h]

/-- C4 witness: the real engine has no `unified_core` strategy, and
requesting it yields the unknown-mode error naming the five available
modes. -/
theorem classify_feature_unknown_mode_witness :
    ClassificationMode.unified_core ∉ (defaultEngine true).available_modes ∧
    (defaultEngine true).classify_feature "a" "b" {}
        (some .unified_core) none =
      .error (.unknownMode .unified_core
        [.legacy_advanced, .legacy_unified, .ultra_granular,
         .strategy_hybrid, .strategy_adaptive]) := by
  refine ⟨by decide, ?_⟩
  exact classify_feature_unknown_mode (defaultEngine true) .unified_core
    "a" "b" {} none (by decide)

/-! ## Claims C5 and C10: batch error containment -/

/-- The substituted batch error result always has primary category
`"error"` and confidence 0. -/
theorem batch_error_result_fields (e : Engine)
    (mode : Option ClassificationMode) (err : EngineError) :
    (batch_error_result e mode err).primary_category = "error" ∧
      (batch_error_result e mode err).confidence = 0 := by
  refine ⟨rfl, ?_⟩
  show (0.0 : ℚ) = 0
  norm_num

/-- C5 — For every engine and every list of N input features, batch
classification returns exactly N results aligned with the input order: the
i-th result is the single-item classification of the i-th input when that
succeeds, and when the single-item path raises, the i-th result is the
substituted explicit error result, which has primary category `"error"`
and confidence 0; processing always continues through the whole list. -/
theorem classify_batch_spec (e : Engine)
    (features : List (String × String × FeatureData))
    (mode : Option ClassificationMode) :
    (e.classify_batch features mode).length = features.length ∧
    (∀ (i : Nat) (name content : String) (fd : FeatureData),
      features[i]? = some (name, content, fd) →
      (∀ r, e.classify_feature name content fd mode none = .ok r →
        (e.classify_batch features mode)[i]? = some r) ∧
      (∀ err, e.classify_feature name content fd mode none = .error err →
        (e.classify_batch features mode)[i]? =
            some (batch_error_result e mode err) ∧
          (batch_error_result e mode err).primary_category = "error" ∧
          (batch_error_result e mode err).confidence = 0)) := by
  constructor
  · exact List.length_map _ _
  · intro i name content fd hi
    have hmap : (e.classify_batch features mode)[i]? =
        some (match e.classify_feature name content fd mode none with
              | .ok result => result
              | .error err => batch_error_result e mode err) := by
      show (features.map _)[i]? = _
      rw [List.getElem?_map, hi]
      rfl
    constructor
    · intro r hr
      rw [hmap, hr]
    · intro err herr
      rw [hmap, herr]
      exact ⟨rfl, (batch_error_result_fields e mode err).1,
        (batch_error_result_fields e mode err).2⟩

/-- C5 witness: a two-item batch on the real engine in legacy-advanced
mode, where the first item succeeds and the second (empty) item makes the
strategy raise and is substituted by the error result. -/
theorem classify_batch_spec_witness :
    ((defaultEngine true).classify_batch
        [("mimo", "mimo", {}), ("", "", {})] (some .legacy_advanced)).length
      = 2 ∧
    (∀ r, (defaultEngine true).classify_feature "" "" {}
        (some .legacy_advanced) none = .error r →
      ((defaultEngine true).classify_batch
          [("mimo", "mimo", {}), ("", "", {})] (some .legacy_advanced))[1]? =
        some (batch_error_result (defaultEngine true)
          (some .legacy_advanced) r)) := by
  have h := classify_batch_spec (defaultEngine true)
    [("mimo", "mimo", {}), ("", "", {})] (some .legacy_advanced)
  refine ⟨h.1, fun r hr => ?_⟩
  exact (((h.2 1 "" "" {}) rfl).2 r hr).1

/-- C10 — For every engine, every feature list and every mode outside the
available set, batch classification does not raise: the unknown-mode error
of the single-item path is caught per item, and the call returns exactly
one result per input, each with primary category `"error"` and
confidence 0. -/
theorem classify_batch_unknown_mode (e : Engine)
    (mode : ClassificationMode)
    (features : List (String × String × FeatureData))
    (h : mode ∉ e.available_modes) :
    (e.classify_batch features (some mode)).length = features.length ∧
    ∀ r ∈ e.classify_batch features (some mode),
      r.primary_category = "error" ∧ r.confidence = 0 := by
  refine ⟨List.length_map _ _, ?_⟩
  intro r hr
  rcases List.mem_map.mp hr with ⟨⟨name, content, fd⟩, _, hval⟩
  dsimp only at hval
  rw [classify_feature_unknown_mode e mode name content fd none h] at hval
  have hval2 : batch_error_result e (some mode)
      (.unknownMode mode e.available_modes) = r := hval
  rw [← hval2]
  exact batch_error_result_fields e (some mode) _

/-- C10 witness: a two-item batch requested with the unavailable
`unified_core` mode yields two error results. -/
theorem classify_batch_unknown_mode_witness :
    ((defaultEngine true).classify_batch
        [("a", "b", {}), ("c", "d", {})] (some .unified_core)).length = 2 ∧
    ∀ r ∈ (defaultEngine true).classify_batch
        [("a", "b", {}), ("c", "d", {})] (some .unified_core),
      r.primary_category = "error" ∧ r.confidence = 0 := by
  have h := classify_batch_unknown_mode (defaultEngine true) .unified_core
    [("a", "b", {}), ("c", "d", {})] (by decide)
  exact ⟨h.1, h.2⟩

/-! ## Claim C8: the adaptive complexity analyzer -/

/-- C8 — A feature with short text (at most 500 characters, so no length
contribution), no matching technical terms, no `parameters`,
`pm_counters`, `prerequisites`, `dependencies` or `conflicts` keys gets
complexity score 0 and the simple tier (for either value of the
ultra-granular availability flag); a feature with text longer than 1000
characters, more than 10 parameters, more than 20 counters and at least
two of the three relationship keys `prerequisites`, `dependencies`,
`conflicts` (any pair suffices) gets a complexity score of at least 7,
selecting the complex tier when the ultra-granular strategy is available
and the standard tier otherwise. -/
theorem adaptive_complexity_spec :
    (∀ (name content : String) (fd : FeatureData),
      content.length ≤ 500 →
      technical_terms.countP (fun term => strContains (pyLower content) term) = 0 →
      fd.parameters = none → fd.pm_counters = none →
      fd.prerequisites = none → fd.dependencies = none → fd.conflicts = none →
      analyze_complexity name content fd = 0 ∧
      (∀ u : Bool, choose_tier (analyze_complexity name content fd) u = "simple")) ∧
    (∀ (name content : String) (fd : FeatureData)
       (params counters : List String),
      content.length > 1000 →
      fd.parameters = some params → params.length > 10 →
      fd.pm_counters = some counters → counters.length > 20 →
      (fd.prerequisites.isSome && fd.dependencies.isSome ||
       fd.prerequisites.isSome && fd.conflicts.isSome ||
       fd.dependencies.isSome && fd.conflicts.isSome) = true →
      7 ≤ analyze_complexity name content fd ∧
      choose_tier (analyze_complexity name content fd) true = "complex" ∧
      choose_tier (analyze_complexity name content fd) false = "standard") := by
  constructor
  · intro name content fd hlen hterms hp hc hpre hdep hconf
    have h0 : analyze_complexity name content fd = 0 := by
      unfold analyze_complexity
      simp only [hp, hc, hterms]
      rw [if_neg (by omega : ¬ content.length > 1000),
        if_neg (by omega : ¬ content.length > 500),
        hpre, hdep, hconf]
      rfl
    exact ⟨h0, fun u => by rw [h0]; rfl⟩
  · intro name content fd params counters hlen hp hpl hc hcl h2
    have h4 : (fd.prerequisites.isSome || fd.dependencies.isSome ||
        fd.conflicts.isSome) = true := by
      revert h2
      cases fd.prerequisites.isSome <;> cases fd.dependencies.isSome <;>
        cases fd.conflicts.isSome <;> simp
    have h7 : 7 ≤ analyze_complexity name content fd := by
      unfold analyze_complexity
      simp only [hp, hc]
      rw [if_pos hlen, if_pos hpl, if_pos hcl, h4, if_pos rfl]
      omega
    refine ⟨h7, ?_, ?_⟩ <;>
    · unfold choose_tier
      rw [if_neg (by omega), if_neg (by omega)]
      rfl

/-- C8 witness: the two tier selections at concrete inputs — an empty
trivial feature scores 0 and picks the simple tier; a 1001-character
feature with 11 parameters, 21 counters and the `dependencies` and
`conflicts` relationship keys (no `prerequisites`) scores at least 7 and
picks complex (ultra available) or standard (not). -/
theorem adaptive_complexity_spec_witness :
    (analyze_complexity "n" "short" {} = 0 ∧
     choose_tier (analyze_complexity "n" "short" {}) true = "simple") ∧
    (7 ≤ analyze_complexity "n" (String.mk (List.replicate 1001 'a'))
        { parameters := some (List.replicate 11 "p")
        , pm_counters := some (List.replicate 21 "c")
        , dependencies := some [], conflicts := some [] } ∧
     choose_tier (analyze_complexity "n" (String.mk (List.replicate 1001 'a'))
        { parameters := some (List.replicate 11 "p")
        , pm_counters := some (List.replicate 21 "c")
        , dependencies := some [], conflicts := some [] }) true = "complex" ∧
     choose_tier (analyze_complexity "n" (String.mk (List.replicate 1001 'a'))
        { parameters := some (List.replicate 11 "p")
        , pm_counters := some (List.replicate 21 "c")
        , dependencies := some [], conflicts := some [] }) false = "standard") := by
  constructor
  · have h := adaptive_complexity_spec.1 "n" "short" {}
      (by decide) (by decide) rfl rfl rfl rfl rfl
    exact ⟨h.1, h.2 true⟩
  · exact adaptive_complexity_spec.2 "n"
      (String.mk (List.replicate 1001 'a'))
      { parameters := some (List.replicate 11 "p")
      , pm_counters := some (List.replicate 21 "c")
      , dependencies := some [], conflicts := some [] }
      (List.replicate 11 "p") (List.replicate 21 "c")
      (by decide) rfl (by decide) rfl (by decide) rfl

end unified_classifier

/-! ## Claim C7: the keyword and pattern scorers -/

namespace core_technology_detector

/-- C7 — For every text: the keyword score of an empty keyword list is 0
and otherwise equals the fraction of keywords present in the text as
substrings (the clamp to 1.0 in the source never cuts, since at most all
keywords match), always lying in [0,1]; likewise the pattern score for
case-insensitive regex patterns; and both scorers are invariant under
permuting their keyword/pattern list. -/
theorem keyword_pattern_score_spec :
    (∀ text : String, calculate_keyword_match_score text [] = 0) ∧
    (∀ (text : String) (keywords : List String), keywords ≠ [] →
      calculate_keyword_match_score text keywords =
        (keywords.countP (fun kw => strContains text kw) : ℚ) /
          (keywords.length : ℚ) ∧
      0 ≤ calculate_keyword_match_score text keywords ∧
      calculate_keyword_match_score text keywords ≤ 1) ∧
    (∀ (text : String) (k1 k2 : List String), List.Perm k1 k2 →
      calculate_keyword_match_score text k1 =
        calculate_keyword_match_score text k2) ∧
    (∀ text : String, calculate_pattern_match_score text [] = 0) ∧
    (∀ (text : String) (patterns : List String), patterns ≠ [] →
      calculate_pattern_match_score text patterns =
        (patterns.countP (fun p => reSearch p text) : ℚ) /
          (patterns.length : ℚ) ∧
      0 ≤ calculate_pattern_match_score text patterns ∧
      calculate_pattern_match_score text patterns ≤ 1) ∧
    (∀ (text : String) (p1 p2 : List String), List.Perm p1 p2 →
      calculate_pattern_match_score text p1 =
        calculate_pattern_match_score text p2) := by
  have score_spec : ∀ (q : String → Bool) (l : List String), l ≠ [] →
      (if l.isEmpty then (0 : ℚ)
       else min ((l.countP q : ℚ) / (l.length : ℚ)) 1) =
        (l.countP q : ℚ) / (l.length : ℚ) ∧
      (0 : ℚ) ≤ (l.countP q : ℚ) / (l.length : ℚ) ∧
      (l.countP q : ℚ) / (l.length : ℚ) ≤ 1 := by
    intro q l hl
    have hlen : 0 < l.length := List.length_pos.mpr hl
    have hlenQ : (0 : ℚ) < (l.length : ℚ) := by exact_mod_cast hlen
    have hcount : (l.countP q : ℚ) ≤ (l.length : ℚ) := by
      exact_mod_cast List.countP_le_length q
    have hfrac0 : (0 : ℚ) ≤ (l.countP q : ℚ) / (l.length : ℚ) :=
      div_nonneg (by positivity) (le_of_lt hlenQ)
    have hfrac1 : (l.countP q : ℚ) / (l.length : ℚ) ≤ 1 :=
      (div_le_one hlenQ).mpr hcount
    refine ⟨?_, hfrac0, hfrac1⟩
    rw [if_neg (by simpa [List.isEmpty_iff] using hl)]
    exact min_eq_left hfrac1
  have perm_spec : ∀ (q : String → Bool) (l1 l2 : List String),
      List.Perm l1 l2 →
      (if l1.isEmpty then (0 : ℚ)
       else min ((l1.countP q : ℚ) / (l1.length : ℚ)) 1) =
      (if l2.isEmpty then (0 : ℚ)
       else min ((l2.countP q : ℚ) / (l2.length : ℚ)) 1) := by
    intro q l1 l2 hperm
    have hlen := hperm.length_eq
    have hcount := hperm.countP_eq q
    have hempty : l1.isEmpty = l2.isEmpty := by
      cases l1 <;> cases l2 <;> simp_all
    rw [hempty, hcount, hlen]
  refine ⟨fun text => rfl, ?_, ?_, fun text => rfl, ?_, ?_⟩
  · intro text keywords h
    have hs := score_spec (fun kw => strContains text kw) keywords h
    have he : calculate_keyword_match_score text keywords =
        (keywords.countP (fun kw => strContains text kw) : ℚ) /
          (keywords.length : ℚ) := hs.1
    exact ⟨he, by rw [he]; exact hs.2.1, by rw [he]; exact hs.2.2⟩
  · intro text k1 k2 hperm
    exact perm_spec (fun kw => strContains text kw) k1 k2 hperm
  · intro text patterns h
    have hs := score_spec (fun p => reSearch p text) patterns h
    have he : calculate_pattern_match_score text patterns =
        (patterns.countP (fun p => reSearch p text) : ℚ) /
          (patterns.length : ℚ) := hs.1
    exact ⟨he, by rw [he]; exact hs.2.1, by rw [he]; exact hs.2.2⟩
  · intro text p1 p2 hperm
    exact perm_spec (fun p => reSearch p text) p1 p2 hperm

/-- C7 witness: concrete scorer runs — two matching keywords out of two
score 1, reordering the list does not change the score, and one matching
pattern out of two scores 1/2. -/
theorem keyword_pattern_score_spec_witness :
    calculate_keyword_match_score "ab" ["a", "b"] = 1 ∧
    calculate_keyword_match_score "ab" ["a", "b"] =
      calculate_keyword_match_score "ab" ["b", "a"] ∧
    calculate_pattern_match_score "ab" ["a", "x"] = 1 / 2 := by
  refine ⟨?_, ?_, ?_⟩
  · rw [(keyword_pattern_score_spec.2.1 "ab" ["a", "b"] (by decide)).1]
    with_unfolding_all decide
  · exact keyword_pattern_score_spec.2.2.1 "ab" ["a", "b"] ["b", "a"]
      (List.Perm.swap "b" "a" [])
  · rw [(keyword_pattern_score_spec.2.2.2.2.1 "ab" ["a", "x"] (by decide)).1]
    with_unfolding_all decide

end core_technology_detector

/-! ## Claim C3: the hybrid combiner -/

/-- Lookup after a `defaultdict(list)` append. -/
theorem alistGet_groupAdd (l : List (String × List ℚ)) (k c : String)
    (v : ℚ) :
    alistGet (groupAdd l k v) c =
      if c = k then some (((alistGet l c).getD []) ++ [v])
      else alistGet l c := by
  induction l with
  | nil =>
    by_cases h : c = k
    · simp [groupAdd, alistGet, h]
    · simp [groupAdd, alistGet, h, Ne.symm h]
  | cons p l ih =>
    obtain ⟨pk, pv⟩ := p
    have hrw : groupAdd ((pk, pv) :: l) k v =
        if pk = k then (pk, pv ++ [v]) :: l
        else (pk, pv) :: groupAdd l k v := rfl
    rw [hrw]
    by_cases hpk : pk = k
    · rw [if_pos hpk]
      have h1 : alistGet ((pk, pv ++ [v]) :: l) c =
          if pk = c then some (pv ++ [v]) else alistGet l c := rfl
      have h2 : alistGet ((pk, pv) :: l) c =
          if pk = c then some pv else alistGet l c := rfl
      rw [h1, h2]
      by_cases hc : pk = c
      · have hck : c = k := by rw [← hc, hpk]
        simp [hc, hck]
      · have hck : ¬ c = k := by
          intro hck2
          exact hc (by rw [hpk, ← hck2])
        simp [hc, hck]
    · rw [if_neg hpk]
      have h1 : alistGet ((pk, pv) :: groupAdd l k v) c =
          if pk = c then some pv else alistGet (groupAdd l k v) c := rfl
      have h2 : alistGet ((pk, pv) :: l) c =
          if pk = c then some pv else alistGet l c := rfl
      rw [h1, ih, h2]
      by_cases hc : pk = c
      · have hck : ¬ c = k := by
          intro hh
          exact hpk (by rw [hc, hh])
        simp [hc, hck]
      · by_cases hck : c = k
        · simp [hc, hck, hpk]
        · simp [hc, hck]

/-- Lookup through the grouping fold: the grouped list for a category is
the accumulator's list followed by that category's scores in traversal
order, and a key is present exactly when it was present before or occurs
in the pairs. -/
theorem alistGet_fold_groupAdd (pairs : List (String × ℚ)) :
    ∀ (acc : List (String × List ℚ)) (c : String),
      ((alistGet (pairs.foldl (fun a p => groupAdd a p.1 p.2) acc) c).getD []
          = ((alistGet acc c).getD []) ++
            ((pairs.filter (fun q => q.1 = c)).map Prod.snd)) ∧
      ((alistGet (pairs.foldl (fun a p => groupAdd a p.1 p.2) acc) c).isSome
          = ((alistGet acc c).isSome ||
            !((pairs.filter (fun q => q.1 = c)).isEmpty))) := by
  induction pairs with
  | nil => intro acc c; simp
  | cons p ps ih =>
    intro acc c
    obtain ⟨pk, pv⟩ := p
    have hstep : (((pk, pv) :: ps).foldl (fun a p => groupAdd a p.1 p.2) acc)
        = ps.foldl (fun a p => groupAdd a p.1 p.2) (groupAdd acc pk pv) := rfl
    rw [hstep]
    have ihs := ih (groupAdd acc pk pv) c
    have hget := alistGet_groupAdd acc pk c pv
    by_cases hc : c = pk
    · have hfilter : ((pk, pv) :: ps).filter (fun q => q.1 = c) =
          (pk, pv) :: ps.filter (fun q => q.1 = c) := by
        simp [List.filter_cons, hc.symm]
      rw [hfilter]
      rw [if_pos hc] at hget
      refine ⟨?_, ?_⟩
      · rw [ihs.1, hget]
        simp
      · rw [ihs.2, hget]
        simp
    · have hfilter : ((pk, pv) :: ps).filter (fun q => q.1 = c) =
          ps.filter (fun q => q.1 = c) := by
        simp [List.filter_cons, Ne.symm hc]
      rw [hfilter]
      rw [if_neg hc] at hget
      exact ⟨by rw [ihs.1, hget], by rw [ihs.2, hget]⟩

/-- Keys after a `defaultdict(list)` append: unchanged if present,
appended otherwise. -/
theorem groupAdd_keys (l : List (String × List ℚ)) (k : String) (v : ℚ) :
    (groupAdd l k v).map Prod.fst =
      if k ∈ l.map Prod.fst then l.map Prod.fst
      else l.map Prod.fst ++ [k] := by
  induction l with
  | nil => simp [groupAdd]
  | cons p l ih =>
    obtain ⟨pk, pv⟩ := p
    have hrw : groupAdd ((pk, pv) :: l) k v =
        if pk = k then (pk, pv ++ [v]) :: l
        else (pk, pv) :: groupAdd l k v := rfl
    rw [hrw]
    by_cases h : pk = k
    · subst h
      simp [List.mem_cons]
    · rw [if_neg h]
      by_cases hm : k ∈ l.map Prod.fst
      · simp [List.map_cons, ih, hm, List.mem_cons, Ne.symm h]
      · simp [List.map_cons, ih, hm, List.mem_cons, Ne.symm h]

/-- A `defaultdict(list)` append preserves key distinctness. -/
theorem groupAdd_nodup (l : List (String × List ℚ)) (k : String) (v : ℚ)
    (h : (l.map Prod.fst).Nodup) : ((groupAdd l k v).map Prod.fst).Nodup := by
  rw [groupAdd_keys]
  split_ifs with hk
  · exact h
  · rw [List.nodup_append]
    refine ⟨h, List.nodup_singleton k, ?_⟩
    intro a ha hb
    rw [List.mem_singleton] at hb
    subst hb
    exact hk ha

/-- A successful association-list lookup is a membership. -/
theorem alistGet_mem {α : Type _} (c : String) (v : α) :
    ∀ l : List (String × α), alistGet l c = some v → (c, v) ∈ l := by
  intro l
  induction l with
  | nil => intro h; cases h
  | cons p l ih =>
    obtain ⟨pk, pv⟩ := p
    intro h
    have hrw : alistGet ((pk, pv) :: l) c =
        if pk = c then some pv else alistGet l c := rfl
    rw [hrw] at h
    by_cases hc : pk = c
    · rw [if_pos hc] at h
      subst hc
      rw [Option.some.injEq] at h
      subst h
      exact List.mem_cons_self _ _
    · rw [if_neg hc] at h
      exact List.mem_cons_of_mem _ (ih h)

/-- With distinct keys, a membership determines the lookup. -/
theorem mem_alistGet_of_nodup {α : Type _} (c : String) (v : α) :
    ∀ l : List (String × α), (l.map Prod.fst).Nodup → (c, v) ∈ l →
      alistGet l c = some v := by
  intro l
  induction l with
  | nil => intro _ h; cases h
  | cons p l ih =>
    obtain ⟨pk, pv⟩ := p
    intro hnd hm
    have hrw : alistGet ((pk, pv) :: l) c =
        if pk = c then some pv else alistGet l c := rfl
    rw [hrw]
    rw [List.map_cons, List.nodup_cons] at hnd
    rcases List.mem_cons.mp hm with h | h
    · rw [Prod.mk.injEq] at h
      rw [if_pos h.1.symm]
      rw [h.2]
    · have hc : pk ≠ c := by
        intro he
        subst he
        exact hnd.1 (List.mem_map.mpr ⟨(pk, v), h, rfl⟩)
      rw [if_neg hc]
      exact ih hnd.2 h

namespace unified_classifier

/-- The scores reported for a category by a list of per-strategy results
(one entry per occurrence, in traversal order). -/
def reported_scores (cat : String)
    (results : List (String × UnifiedClassificationResult)) : List ℚ :=
  (((results.flatMap (fun p => p.2.secondary_categories)).filter
    (fun q => q.1 = cat)).map Prod.snd)

/-- The grouping loop flattens to a single fold over all reported
`(category, score)` pairs. -/
theorem all_secondary_groups_flatten
    (results : List (String × UnifiedClassificationResult)) :
    ∀ acc,
      results.foldl (fun acc r =>
        r.2.secondary_categories.foldl (fun acc p => groupAdd acc p.1 p.2) acc)
        acc =
      (results.flatMap (fun p => p.2.secondary_categories)).foldl
        (fun acc p => groupAdd acc p.1 p.2) acc := by
  induction results with
  | nil => intro acc; rfl
  | cons r rs ih =>
    intro acc
    show rs.foldl _ (r.2.secondary_categories.foldl _ acc) = _
    rw [ih, List.flatMap_cons, List.foldl_append]

/-- The grouping loop produces distinct category keys. -/
theorem all_secondary_groups_nodup
    (results : List (String × UnifiedClassificationResult)) :
    ((all_secondary_groups results).map Prod.fst).Nodup := by
  unfold all_secondary_groups
  rw [all_secondary_groups_flatten]
  exact foldl_invariant
    (fun l : List (String × List ℚ) => (l.map Prod.fst).Nodup)
    (fun (a : List (String × List ℚ)) (p : String × ℚ) =>
      groupAdd a p.1 p.2)
    (fun a p ha => groupAdd_nodup a p.1 p.2 ha)
    _ [] List.nodup_nil

/-- C3 — For every non-empty list of per-strategy results, the hybrid
combiner's confidence dominates every strategy's confidence, its primary
fields (primary category, confidence, evidence, skill level, target
roles, use-case scenarios) all come from one result attaining that
maximal confidence, and its merged secondary list contains exactly the
pairs `(category, mean)` where the category was reported by at least one
succeeding strategy and `mean` is the arithmetic mean of all scores
reported for it — in particular scores 0.4 and 0.6 merge to exactly 0.5
and a single reporter's score is kept unchanged (witness). -/
theorem hybrid_combine_spec (r0 : String × UnifiedClassificationResult)
    (rest : List (String × UnifiedClassificationResult)) :
    (∀ q ∈ r0 :: rest,
      q.2.confidence ≤ (hybrid_combine r0 rest).confidence) ∧
    (∃ p, p ∈ r0 :: rest ∧
      (hybrid_combine r0 rest).confidence = p.2.confidence ∧
      (hybrid_combine r0 rest).primary_category = p.2.primary_category ∧
      (hybrid_combine r0 rest).evidence = p.2.evidence ∧
      (hybrid_combine r0 rest).skill_level = p.2.skill_level ∧
      (hybrid_combine r0 rest).target_roles = p.2.target_roles ∧
      (hybrid_combine r0 rest).use_case_scenarios =
        p.2.use_case_scenarios) ∧
    (∀ (cat : String) (s : ℚ),
      (cat, s) ∈ (hybrid_combine r0 rest).secondary_categories ↔
        (reported_scores cat (r0 :: rest) ≠ [] ∧
          s = (reported_scores cat (r0 :: rest)).sum /
            ((reported_scores cat (r0 :: rest)).length : ℚ))) := by
  have hconf : (hybrid_combine r0 rest).confidence =
      (pyMaxBy (fun p => p.2.confidence) r0 rest).2.confidence := rfl
  refine ⟨?_, ?_, ?_⟩
  · intro q hq
    rw [hconf]
    exact pyMaxBy_ge (fun p => p.2.confidence) rest r0 q hq
  · exact ⟨pyMaxBy (fun p => p.2.confidence) r0 rest,
      pyMaxBy_mem (fun p => p.2.confidence) rest r0,
      rfl, rfl, rfl, rfl, rfl, rfl⟩
  · intro cat s
    have hsec : (hybrid_combine r0 rest).secondary_categories =
        (all_secondary_groups (r0 :: rest)).map
          (fun g => (g.1, g.2.sum / (g.2.length : ℚ))) := rfl
    have hgroups : all_secondary_groups (r0 :: rest) =
        ((r0 :: rest).flatMap (fun p => p.2.secondary_categories)).foldl
          (fun acc p => groupAdd acc p.1 p.2) [] :=
      all_secondary_groups_flatten (r0 :: rest) []
    have hlk := alistGet_fold_groupAdd
      ((r0 :: rest).flatMap (fun p => p.2.secondary_categories)) [] cat
    have hgetD : (alistGet (all_secondary_groups (r0 :: rest)) cat).getD []
        = reported_scores cat (r0 :: rest) := by
      rw [hgroups]
      rw [hlk.1]
      simp [reported_scores, alistGet]
    have hisSome : (alistGet (all_secondary_groups (r0 :: rest)) cat).isSome
        = !(((r0 :: rest).flatMap (fun p => p.2.secondary_categories)).filter
            (fun q => q.1 = cat)).isEmpty := by
      rw [hgroups, hlk.2]
      simp [alistGet]
    have hnodup := all_secondary_groups_nodup (r0 :: rest)
    constructor
    · intro hmem
      rw [hsec] at hmem
      rcases List.mem_map.mp hmem with ⟨g, hg, hgs⟩
      rw [Prod.mk.injEq] at hgs
      obtain ⟨hg1, hg2⟩ := hgs
      have hlkp : alistGet (all_secondary_groups (r0 :: rest)) cat =
          some g.2 := by
        have : (g.1, g.2) ∈ all_secondary_groups (r0 :: rest) := by
          simpa using hg
        rw [← hg1]
        exact mem_alistGet_of_nodup g.1 g.2 _ hnodup this
      have hval : g.2 = reported_scores cat (r0 :: rest) := by
        rw [← hgetD, hlkp]
        rfl
      constructor
      · intro hnil
        have : (alistGet (all_secondary_groups (r0 :: rest)) cat).isSome
            = true := by rw [hlkp]; rfl
        rw [hisSome] at this
        unfold reported_scores at hnil
        rcases hfe : ((r0 :: rest).flatMap
            (fun p => p.2.secondary_categories)).filter
              (fun q => q.1 = cat) with _ | ⟨x, xs⟩
        · rw [hfe] at this
          simp at this
        · rw [hfe] at hnil
          simp at hnil
      · rw [← hg2, hval]
    · rintro ⟨hne, hs⟩
      have hfilter_ne : ¬ (((r0 :: rest).flatMap
          (fun p => p.2.secondary_categories)).filter
            (fun q => q.1 = cat)).isEmpty = true := by
        intro hemp
        apply hne
        unfold reported_scores
        rw [List.isEmpty_iff] at hemp
        rw [hemp]
        rfl
      have hsome : (alistGet (all_secondary_groups (r0 :: rest)) cat).isSome
          = true := by
        rw [hisSome]
        simpa using hfilter_ne
      rcases hlkp : alistGet (all_secondary_groups (r0 :: rest)) cat with
        _ | xs
      · rw [hlkp] at hsome
        cases hsome
      · have hxs : xs = reported_scores cat (r0 :: rest) := by
          rw [← hgetD, hlkp]
          rfl
        have hmem : (cat, xs) ∈ all_secondary_groups (r0 :: rest) :=
          alistGet_mem cat xs _ hlkp
        rw [hsec]
        refine List.mem_map.mpr ⟨(cat, xs), hmem, ?_⟩
        rw [Prod.mk.injEq]
        exact ⟨rfl, by rw [hs, hxs]⟩

/-- A concrete pair of strategy results both reporting
`mobility_management`, with scores 0.4 and 0.6. -/
def mergeExampleA : UnifiedClassificationResult :=
  { primary_category := "general", confidence := 0.5
  , secondary_categories := [("mobility_management", 0.4), ("security", 0.3)] }

/-- The second strategy result of the merge example. -/
def mergeExampleB : UnifiedClassificationResult :=
  { primary_category := "general", confidence := 0.7
  , secondary_categories := [("mobility_management", 0.6)] }

/-- C3 witness: merging scores 0.4 and 0.6 for `mobility_management`
yields exactly their mean 0.5; `security`, reported only by the first
strategy, keeps its score 0.3; and the combiner's confidence is the
maximal 0.7. -/
theorem hybrid_combine_spec_witness :
    ("mobility_management", (0.5 : ℚ)) ∈
      (hybrid_combine ("a", mergeExampleA)
        [("b", mergeExampleB)]).secondary_categories ∧
    ("security", (0.3 : ℚ)) ∈
      (hybrid_combine ("a", mergeExampleA)
        [("b", mergeExampleB)]).secondary_categories ∧
    mergeExampleA.confidence ≤
      (hybrid_combine ("a", mergeExampleA) [("b", mergeExampleB)]).confidence := by
  have h := hybrid_combine_spec ("a", mergeExampleA) [("b", mergeExampleB)]
  refine ⟨?_, ?_, ?_⟩
  · refine (h.2.2 "mobility_management" 0.5).mpr ⟨?_, ?_⟩
    · with_unfolding_all decide
    · with_unfolding_all decide
  · refine (h.2.2 "security" 0.3).mpr ⟨?_, ?_⟩
    · with_unfolding_all decide
    · with_unfolding_all decide
  · exact h.1 ("a", mergeExampleA) (List.mem_cons_self _ _)

end unified_classifier

/-! ## Claim C9: non-empty domain, role and scenario lists -/

/-- C9 (amended) — The enhanced detector's `detect_domains` never returns
an empty list, for every sensitivity, scope, cross-technology setting and
feature: when no domain clears the sensitivity criteria, the single
default other-domain entry with minimal confidence is substituted.  The
never-empty guarantee does not extend to every code path, however: the
legacy-unified keyword fallback produces results whose
`technology_domains`, `target_roles` and `use_case_scenarios` are all
empty, for every content string. -/
theorem detect_domains_never_empty :
    (∀ (sensitivity : core_technology_detector.DetectionSensitivity)
       (scope : core_technology_detector.TechnologyScope)
       (enable_cross_technology : Bool) (f : EnhancedEricssonFeature),
      1 ≤ (core_technology_detector.detect_domains sensitivity scope
            enable_cross_technology f).length) ∧
    (∀ content : String,
      (unified_classifier.fallback_classification content).technology_domains
          = [] ∧
      (unified_classifier.fallback_classification content).target_roles = [] ∧
      (unified_classifier.fallback_classification content).use_case_scenarios
          = []) := by
  have hensure : ∀ l : List core_technology_detector.EnhancedDomainDetection,
      1 ≤ (core_technology_detector.ensure_default l).length := by
    intro l
    unfold core_technology_detector.ensure_default
    split_ifs with h
    · simp
    · rw [List.isEmpty_iff] at h
      exact Nat.one_le_iff_ne_zero.mpr (by simpa using h)
  constructor
  · intro sensitivity scope enable_cross_technology f
    exact hensure _
  · intro content
    exact ⟨rfl, rfl, rfl⟩

/-- C9 counterexample — the legacy-unified strategy (a real engine code
path) returns the keyword fallback on every call, and on the concrete
input `("x", "y", {})` that result has empty `technology_domains`,
`target_roles` and `use_case_scenarios`, so the original never-empty claim
fails. -/
theorem fallback_empty_lists_counterexample :
    unified_classifier.LegacyUnifiedStrategy.classify "x" "y" {} =
      .ok (unified_classifier.fallback_classification "y") ∧
    (unified_classifier.fallback_classification "y").technology_domains = [] ∧
    (unified_classifier.fallback_classification "y").target_roles = [] ∧
    (unified_classifier.fallback_classification "y").use_case_scenarios = [] := by
  exact ⟨rfl, rfl, rfl, rfl⟩

/-! ## Claims C1 and C2: legacy-advanced score bounds and
primary/secondary disjointness -/

/-- Projection: the primary category of a strategy result (empty string on
a raised exception). -/
def primaryOf
    (x : Except String unified_classifier.UnifiedClassificationResult) :
    String :=
  match x with
  | .ok r => r.primary_category
  | .error _ => ""

/-- Projection: the secondary categories of a strategy result (empty on a
raised exception). -/
def secondaryOf
    (x : Except String unified_classifier.UnifiedClassificationResult) :
    List (String × ℚ) :=
  match x with
  | .ok r => r.secondary_categories
  | .error _ => []

/-- All score values of an association list are nonnegative. -/
def valuesNonneg (l : List (String × ℚ)) : Prop := ∀ p ∈ l, 0 ≤ p.2

theorem valuesNonneg_nil : valuesNonneg ([] : List (String × ℚ)) := by
  intro p hp
  cases hp

theorem valuesNonneg_ite (c : Prop) [Decidable c] (l : List (String × ℚ))
    (k : String) (v : ℚ) (h : valuesNonneg l) (hv : 0 ≤ v) :
    valuesNonneg (if c then dictAdd l k v else l) := by
  split_ifs
  · exact dictAdd_nonneg k v hv l h
  · exact h

/-- A fold preserves an invariant when every step taken at a member of the
list does. -/
theorem foldl_mem_invariant {α β : Type _} (P : α → Prop)
    (step : α → β → α) :
    ∀ l : List β, (∀ a b, b ∈ l → P a → P (step a b)) →
      ∀ a, P a → P (l.foldl step a) := by
  intro l
  induction l with
  | nil =>
    intro _ a ha
    exact ha
  | cons b t ih =>
    intro h a ha
    exact ih (fun a x hx hax => h a x (List.mem_cons_of_mem _ hx) hax)
      (step a b) (h a b (List.mem_cons_self _ _) ha)

theorem analyze_feature_name_nonneg (name description : String) :
    valuesNonneg (feature_classifier.analyze_feature_name name description) := by
  simp only [feature_classifier.analyze_feature_name]
  refine foldl_mem_invariant valuesNonneg _ _ ?_ [] valuesNonneg_nil
  intro acc t ht hacc
  rcases List.mem_filterMap.mp ht with ⟨tk, -, hf⟩
  split_ifs at hf with hr
  · have ht2 : t = (tk.1, ((tk.2.countP (fun kw => strContains
        (pyLower (name ++ " " ++ description)) kw) : ℕ) : ℚ),
        min (((tk.2.countP (fun kw => strContains
          (pyLower (name ++ " " ++ description)) kw) : ℕ) : ℚ) /
          ((tk.2.length : ℕ) : ℚ)) 1) := (Option.some.inj hf).symm
    subst ht2
    rcases hmc : feature_classifier.map_theme_to_category tk.1 with _ | cat
    · simp only [hmc]
      exact hacc
    · simp only [hmc]
      refine dictAdd_nonneg cat _ ?_ acc hacc
      exact mul_nonneg (Nat.cast_nonneg _)
        (le_min (div_nonneg (Nat.cast_nonneg _) (Nat.cast_nonneg _))
          zero_le_one)

theorem analyze_content_themes_nonneg (f : EnhancedEricssonFeature) :
    valuesNonneg (feature_classifier.analyze_content_themes f) := by
  simp only [feature_classifier.analyze_content_themes]
  repeat refine valuesNonneg_ite _ _ _ _ ?_ (by norm_num)
  exact valuesNonneg_nil

theorem analyze_parameter_types_nonneg (mo_classes : List String) :
    valuesNonneg (feature_classifier.analyze_parameter_types mo_classes) := by
  simp only [feature_classifier.analyze_parameter_types]
  repeat refine valuesNonneg_ite _ _ _ _ ?_ (by norm_num)
  exact valuesNonneg_nil

theorem analyze_counter_domains_nonneg (pm_counters : List String) :
    valuesNonneg (feature_classifier.analyze_counter_domains pm_counters) := by
  simp only [feature_classifier.analyze_counter_domains]
  repeat refine valuesNonneg_ite _ _ _ _ ?_ (by norm_num)
  exact valuesNonneg_nil

theorem analyze_network_impact_nonneg (f : EnhancedEricssonFeature) :
    valuesNonneg (feature_classifier.analyze_network_impact f) := by
  simp only [feature_classifier.analyze_network_impact]
  repeat refine valuesNonneg_ite _ _ _ _ ?_ (by norm_num)
  exact valuesNonneg_nil

theorem calculate_weighted_scores_nonneg
    (analyses : List (List (String × ℚ) × ℚ))
    (h : ∀ aw ∈ analyses, valuesNonneg aw.1 ∧ 0 ≤ aw.2) :
    valuesNonneg (feature_classifier.calculate_weighted_scores analyses) := by
  simp only [feature_classifier.calculate_weighted_scores]
  refine foldl_mem_invariant valuesNonneg _ analyses ?_ [] valuesNonneg_nil
  intro a aw haw ha
  refine foldl_mem_invariant valuesNonneg _ aw.1 ?_ a ha
  intro a2 cs hcs ha2
  exact dictAdd_nonneg cs.1 _
    (mul_nonneg ((h aw haw).1 cs hcs) (h aw haw).2) a2 ha2

theorem calculate_weighted_scores_nodup
    (analyses : List (List (String × ℚ) × ℚ)) :
    ((feature_classifier.calculate_weighted_scores analyses).map
      Prod.fst).Nodup := by
  simp only [feature_classifier.calculate_weighted_scores]
  refine foldl_invariant
    (fun l : List (String × ℚ) => (l.map Prod.fst).Nodup) _ ?_
    analyses [] List.nodup_nil
  intro a aw ha
  exact foldl_invariant
    (fun l : List (String × ℚ) => (l.map Prod.fst).Nodup) _
    (fun a2 cs ha2 => dictAdd_nodup a2 cs.1 _ ha2) aw.1 a ha

/-- The combined weighted score dict built by `classify_feature` has only
nonnegative values: every analysis produces nonnegative scores and every
analysis weight is nonnegative. -/
theorem classify_analyses_nonneg (f : EnhancedEricssonFeature) :
    valuesNonneg (feature_classifier.calculate_weighted_scores
      [ (feature_classifier.analyze_feature_name f.name f.description, 0.30)
      , (feature_classifier.analyze_content_themes f, 0.25)
      , (feature_classifier.analyze_parameter_types
          f.configuration.mo_classes, 0.20)
      , (feature_classifier.analyze_counter_domains
          f.performance_monitoring.pm_counters, 0.15)
      , (feature_classifier.analyze_network_impact f, 0.10) ]) := by
  refine calculate_weighted_scores_nonneg _ ?_
  intro aw haw
  simp only [List.mem_cons, List.not_mem_nil, or_false] at haw
  rcases haw with rfl | rfl | rfl | rfl | rfl
  · exact ⟨analyze_feature_name_nonneg _ _, by norm_num⟩
  · exact ⟨analyze_content_themes_nonneg _, by norm_num⟩
  · exact ⟨analyze_parameter_types_nonneg _, by norm_num⟩
  · exact ⟨analyze_counter_domains_nonneg _, by norm_num⟩
  · exact ⟨analyze_network_impact_nonneg _, by norm_num⟩

/-- `classify_feature` keeps its confidence within `[0, 1]` and all
secondary scores nonnegative. -/
theorem classify_feature_bounds (f : EnhancedEricssonFeature)
    (c : EnhancedClassification)
    (h : feature_classifier.classify_feature f = some c) :
    (0 ≤ c.classification_confidence ∧ c.classification_confidence ≤ 1) ∧
      ∀ s ∈ c.secondary_classifications, 0 ≤ s.score := by
  have hnn := classify_analyses_nonneg f
  simp only [feature_classifier.classify_feature] at h
  generalize hs : feature_classifier.calculate_weighted_scores
      [ (feature_classifier.analyze_feature_name f.name f.description, 0.30)
      , (feature_classifier.analyze_content_themes f, 0.25)
      , (feature_classifier.analyze_parameter_types
          f.configuration.mo_classes, 0.20)
      , (feature_classifier.analyze_counter_domains
          f.performance_monitoring.pm_counters, 0.15)
      , (feature_classifier.analyze_network_impact f, 0.10) ] =
      scores at h hnn
  cases scores with
  | nil => exact Option.noConfusion h
  | cons s0 srest =>
    dsimp only at h
    rw [Option.some.injEq] at h
    subst h
    have hp0 : 0 ≤ (pyMaxBy (fun p : String × ℚ => p.2) s0 srest).2 :=
      hnn _ (pyMaxBy_mem _ _ _)
    refine ⟨⟨?_, ?_⟩, ?_⟩
    · show 0 ≤ min ((pyMaxBy (fun p : String × ℚ => p.2) s0 srest).2 + 0.1) 1.0
      have h01 : (0 : ℚ) ≤ 0.1 := by norm_num
      have h10 : (0 : ℚ) ≤ 1.0 := by norm_num
      exact le_min (by linarith) h10
    · show min ((pyMaxBy (fun p : String × ℚ => p.2) s0 srest).2 + 0.1) 1.0 ≤ 1
      have h11 : (1.0 : ℚ) = 1 := by norm_num
      rw [h11]
      exact min_le_right _ _
    · intro s hs2
      dsimp only at hs2
      rcases List.mem_map.mp hs2 with ⟨q, hq, hqs⟩
      have hq2 : q ∈ sortDescBy (fun p : String × ℚ => p.2) (s0 :: srest) :=
        List.drop_subset _ _ (List.take_subset _ _ hq)
      have hq3 : q ∈ s0 :: srest := (sortDescBy_perm _ _).mem_iff.mp hq2
      have hq4 := hnn q hq3
      rw [← hqs]
      exact hq4

/-- `classify_feature` never repeats the primary category among the
secondary ones: the weighted score dict has pairwise distinct keys and the
secondaries are drawn strictly after the head of the sorted list, which is
the selected primary. -/
theorem classify_feature_primary_not_secondary (f : EnhancedEricssonFeature)
    (c : EnhancedClassification)
    (h : feature_classifier.classify_feature f = some c) :
    c.get_primary_category ∉
      c.secondary_classifications.map (fun s => s.category) := by
  have hnd := calculate_weighted_scores_nodup
    [ (feature_classifier.analyze_feature_name f.name f.description, 0.30)
    , (feature_classifier.analyze_content_themes f, 0.25)
    , (feature_classifier.analyze_parameter_types
        f.configuration.mo_classes, 0.20)
    , (feature_classifier.analyze_counter_domains
        f.performance_monitoring.pm_counters, 0.15)
    , (feature_classifier.analyze_network_impact f, 0.10) ]
  simp only [feature_classifier.classify_feature] at h
  generalize hs : feature_classifier.calculate_weighted_scores
      [ (feature_classifier.analyze_feature_name f.name f.description, 0.30)
      , (feature_classifier.analyze_content_themes f, 0.25)
      , (feature_classifier.analyze_parameter_types
          f.configuration.mo_classes, 0.20)
      , (feature_classifier.analyze_counter_domains
          f.performance_monitoring.pm_counters, 0.15)
      , (feature_classifier.analyze_network_impact f, 0.10) ] =
      scores at h hnd
  cases scores with
  | nil => exact Option.noConfusion h
  | cons s0 srest =>
    dsimp only at h
    rw [Option.some.injEq] at h
    subst h
    have hhead := sortDescBy_head (fun p : String × ℚ => p.2) srest s0
    rcases hsort : sortDescBy (fun p : String × ℚ => p.2) (s0 :: srest)
      with _ | ⟨m, t⟩
    · rw [hsort] at hhead
      exact Option.noConfusion hhead
    · rw [hsort] at hhead
      have hm : m = pyMaxBy (fun p : String × ℚ => p.2) s0 srest :=
        Option.some.inj hhead
      have hperm : List.Perm
          ((sortDescBy (fun p : String × ℚ => p.2) (s0 :: srest)).map
            Prod.fst) ((s0 :: srest).map Prod.fst) :=
        (sortDescBy_perm _ _).map Prod.fst
      rw [hsort] at hperm
      have hnd2 : ((m :: t).map Prod.fst).Nodup := hperm.nodup_iff.mpr hnd
      rw [List.map_cons, List.nodup_cons] at hnd2
      intro hmem
      simp only [EnhancedClassification.get_primary_category,
        List.map_map] at hmem
      rcases List.mem_map.mp hmem with ⟨q, hq, hq1⟩
      have hq2 : q ∈ t := List.take_subset _ _ hq
      exact hnd2.1 (List.mem_map.mpr ⟨q, hq2, by rw [hm]; exact hq1⟩)

/-- C1 (amended) — every successful legacy-advanced classification has a
confidence within `[0, 1]`, and every secondary-category score is
nonnegative.  Contrary to the original claim the secondary scores are not
bounded above by 1: they are raw weighted scores and can exceed 1 (see the
counterexample `legacy_advanced_score_above_one`). -/
theorem legacy_advanced_bounds (name content : String) (fd : FeatureData)
    (r : unified_classifier.UnifiedClassificationResult)
    (h : unified_classifier.LegacyAdvancedStrategy.classify name content fd =
      .ok r) :
    (0 ≤ r.confidence ∧ r.confidence ≤ 1) ∧
      ∀ p ∈ r.secondary_categories, 0 ≤ p.2 := by
  simp only [unified_classifier.LegacyAdvancedStrategy.classify] at h
  rcases hc : feature_classifier.classify_feature
      (unified_classifier.create_enhanced_feature name content fd)
    with _ | cl
  · rw [hc] at h
    exact Except.noConfusion h
  · rw [hc] at h
    dsimp only at h
    rw [Except.ok.injEq] at h
    subst h
    have hb := classify_feature_bounds _ cl hc
    refine ⟨hb.1, ?_⟩
    intro p hp
    dsimp only at hp
    rcases List.mem_map.mp hp with ⟨s, hsmem, hps⟩
    have hss := hb.2 s hsmem
    rw [← hps]
    exact hss

/-- The legacy-advanced strategy's result on the feature
`("mimo", "mimo", {})`, extracted from the `Except`. -/
def advMimoRes : unified_classifier.UnifiedClassificationResult :=
  match unified_classifier.LegacyAdvancedStrategy.classify "mimo" "mimo" {}
  with
  | .ok r => r
  | .error _ => { primary_category := "", confidence := 0 }

theorem legacy_advanced_bounds_witness :
    0 ≤ advMimoRes.confidence ∧ advMimoRes.confidence ≤ 1 :=
  (legacy_advanced_bounds "mimo" "mimo" {} advMimoRes
    (by with_unfolding_all rfl)).1

/-- A description rich in energy and MIMO keywords. -/
def c1content : String :=
  "mimo beamforming antenna diversity spatial layer tm8 tm3 energy " ++
  "power sleep saving efficiency pa reduction consumption"

/-- C1 counterexample — on the feature `("x", c1content, {})` the
legacy-advanced strategy succeeds and returns the secondary category
`("energy_efficiency", 12/5)`, whose score exceeds 1, refuting the claimed
`[0, 1]` range for secondary scores. -/
theorem legacy_advanced_score_above_one :
    secondaryOf (unified_classifier.LegacyAdvancedStrategy.classify "x"
        c1content {}) = [("energy_efficiency", 12/5)] ∧
      ¬ ((12 : ℚ)/5 ≤ 1) := by
  constructor
  · with_unfolding_all decide
  · with_unfolding_all decide

/-- C2 (amended) — for the legacy-advanced strategy the primary category
never appears among the secondary-category names.  The original claim,
stated for the engine at large, fails for the hybrid strategy (see the
counterexample `hybrid_primary_among_secondary`). -/
theorem legacy_advanced_primary_not_in_secondary (name content : String)
    (fd : FeatureData) (r : unified_classifier.UnifiedClassificationResult)
    (h : unified_classifier.LegacyAdvancedStrategy.classify name content fd =
      .ok r) :
    r.primary_category ∉ r.secondary_categories.map Prod.fst := by
  simp only [unified_classifier.LegacyAdvancedStrategy.classify] at h
  rcases hc : feature_classifier.classify_feature
      (unified_classifier.create_enhanced_feature name content fd)
    with _ | cl
  · rw [hc] at h
    exact Except.noConfusion h
  · rw [hc] at h
    dsimp only at h
    rw [Except.ok.injEq] at h
    subst h
    have hnp := classify_feature_primary_not_secondary _ cl hc
    intro hmem
    dsimp only at hmem
    simp only [List.map_map, Function.comp] at hmem
    exact hnp hmem

theorem legacy_advanced_primary_not_in_secondary_witness :
    advMimoRes.primary_category ∉
      advMimoRes.secondary_categories.map Prod.fst :=
  legacy_advanced_primary_not_in_secondary "mimo" "mimo" {} advMimoRes
    (by with_unfolding_all rfl)

/-- C2 counterexample input: feature data whose description mentions both
MIMO and slicing. -/
def c2fdA : FeatureData := { description := some "mimo slicing" }

/-- C2 counterexample — under both configurations of ultra-granular
availability the hybrid strategy returns a result whose primary category
also appears among its secondary-category names, refuting the original
claim for the engine at large. -/
theorem hybrid_primary_among_secondary :
    (primaryOf (unified_classifier.HybridStrategy.classify true "x"
        "slicing nssai network slice isolation" c2fdA) ∈
      (secondaryOf (unified_classifier.HybridStrategy.classify true "x"
        "slicing nssai network slice isolation" c2fdA)).map Prod.fst) ∧
    (primaryOf (unified_classifier.HybridStrategy.classify false "x"
        "mimo beamforming antenna power" {}) ∈
      (secondaryOf (unified_classifier.HybridStrategy.classify false "x"
        "mimo beamforming antenna power" {})).map Prod.fst) := by
  constructor
  · with_unfolding_all decide
  · with_unfolding_all decide

end RanClassify
